import Mathlib

/-!
# ESP-NOW receivers: frame handling of `espnow_receiver` and `espnow_receiver_g1`

A shallow embedding of the two receive callbacks of the repository

* `src/espnow_receiver_g1/main/main.c`: the group receiver (`on_data_recv`, `send_reply`),
* `src/espnow_receiver/main/main.c`: the LED / telemetry receiver (`on_data_recv`),

followed by theorems about them.

Conventions of the embedding.

* A byte is a `Fin 256`. A buffer (what a `uint8_t*` or `char*` points to) is a `List Byte`;
  a pointer that may be `NULL` is an `Option`.
* The target is a little-endian 32-bit machine (ESP32): `uint32_t`, `int32_t`, `int` and `float`
  occupy four bytes, least significant byte first, aligned to four bytes. A `float` is carried
  as its 32-bit pattern.
* The callbacks return `void`; what they do is recorded as the new value of the global they
  write (`last_sequence`) and the list of calls they make on their collaborators, in program
  order: `ESP_LOGx` lines, `esp_now_send`, `gpio_set_level`.
* What the environment answers (`esp_timer_get_time`, the return value of `esp_now_send`) is a
  parameter.
-/

set_option maxRecDepth 8000

namespace espnow

/-- One octet. -/
abbrev Byte := Fin 256

/-- Bytes of an ASCII string literal, terminator not included. -/
def c_literal (s : String) : List Byte :=
  s.toList.map (fun c => (⟨c.toNat % 256, Nat.mod_lt _ (by decide)⟩ : Byte))

/-- Text denoted by a `char*`: the bytes before the first zero byte. -/
def c_str (p : List Byte) : List Byte :=
  p.takeWhile (fun b => b != 0)

/-- The call `strncpy(dest, src, n)`: the first `n` bytes of `dest` receive the text of `src`
cut to `n` bytes and, when the text is shorter, zero bytes up to `n`; the rest of `dest`
is kept. -/
def strncpy (dest src : List Byte) (n : Nat) : List Byte :=
  let s := (c_str src).take n
  s ++ List.replicate (n - s.length) 0 ++ dest.drop n

/-- The call `strcmp(a, b) == 0`. -/
def strcmp_eq (a b : List Byte) : Bool :=
  c_str a == c_str b

/-- Text printed by `%.*s` with precision `n`: at most `n` bytes, stopping at a zero byte. -/
def c_str_prec (n : Nat) (p : List Byte) : List Byte :=
  c_str (p.take n)

/-- Load of a `uint8_t` at byte offset `off`. -/
def rd_u8 (p : List Byte) (off : Nat) : Nat :=
  (p.getD off 0).val

/-- Load of a little-endian `uint32_t` at byte offset `off`. -/
def rd_u32 (p : List Byte) (off : Nat) : Nat :=
  rd_u8 p off + 256 * rd_u8 p (off + 1) + 65536 * rd_u8 p (off + 2)
    + 16777216 * rd_u8 p (off + 3)

/-- Load of a little-endian two's complement `int32_t` at byte offset `off`. -/
def rd_i32 (p : List Byte) (off : Nat) : Int :=
  if rd_u32 p off < 2147483648 then (rd_u32 p off : Int) else (rd_u32 p off : Int) - 4294967296

/-- Object representation of a `uint32_t`: four bytes, least significant first. -/
def wr_u32 (v : Nat) : List Byte :=
  [⟨v % 256, Nat.mod_lt _ (by decide)⟩,
   ⟨v / 256 % 256, Nat.mod_lt _ (by decide)⟩,
   ⟨v / 65536 % 256, Nat.mod_lt _ (by decide)⟩,
   ⟨v / 16777216 % 256, Nat.mod_lt _ (by decide)⟩]

/-- Six-byte link-layer address. -/
structure mac_addr_t where
  b0 : Byte
  b1 : Byte
  b2 : Byte
  b3 : Byte
  b4 : Byte
  b5 : Byte
deriving DecidableEq, Repr

/-- The part of `wifi_pkt_rx_ctrl_t` the callbacks read. -/
structure wifi_pkt_rx_ctrl_t where
  rssi : Int
deriving DecidableEq, Repr

/-- The part of `esp_now_recv_info_t` the callbacks read; `rx_ctrl` may be `NULL`. -/
structure esp_now_recv_info_t where
  src_addr : mac_addr_t
  rx_ctrl : Option wifi_pkt_rx_ctrl_t
deriving DecidableEq, Repr

/-- Severity of an `ESP_LOGx` line. -/
inductive log_level where
  | E
  | W
  | I
deriving DecidableEq, Repr

end espnow

/-! ## The group receiver, `src/espnow_receiver_g1/main/main.c` -/

namespace espnow_receiver_g1

open espnow

/-- `#define MY_NODE_ID "NODE_G1_001"`. -/
def MY_NODE_ID : List Byte := c_literal "NODE_G1_001"

/-- `#define MY_GROUP_ID 1`. -/
def MY_GROUP_ID : Nat := 1

/-- The local object `reply_data` of type `broadcast_data_t`, field by field; `pad` is the two
bytes the compiler leaves between `group_id` and the four-byte aligned `sequence_num`. -/
structure broadcast_data_t where
  sender_id : List Byte
  message : List Byte
  message_type : Nat
  group_id : Nat
  pad : List Byte
  sequence_num : Nat
  timestamp : Nat
deriving DecidableEq, Repr

/-- `sizeof(broadcast_data_t)`: 20 + 180 + 1 + 1 + 2 (padding) + 4 + 4. -/
def sizeof_broadcast_data_t : Nat := 212

/-- `sizeof(reply_data.sender_id)`. -/
def sizeof_sender_id : Nat := 20

/-- `sizeof(reply_data.message)`. -/
def sizeof_message : Nat := 180

/-- Byte offset of `sender_id` in `broadcast_data_t`. -/
def offsetof_sender_id : Nat := 0

/-- Byte offset of `message` in `broadcast_data_t`. -/
def offsetof_message : Nat := 20

/-- Byte offset of `message_type` in `broadcast_data_t`. -/
def offsetof_message_type : Nat := 200

/-- Byte offset of `group_id` in `broadcast_data_t`. -/
def offsetof_group_id : Nat := 201

/-- Byte offset of `sequence_num` in `broadcast_data_t`. -/
def offsetof_sequence_num : Nat := 204

/-- Byte offset of `timestamp` in `broadcast_data_t`. -/
def offsetof_timestamp : Nat := 208

/-- The bytes `(uint8_t*)&reply_data` points to. -/
def to_bytes (r : broadcast_data_t) : List Byte :=
  r.sender_id ++ r.message
    ++ [(⟨r.message_type % 256, Nat.mod_lt _ (by decide)⟩ : Byte),
        (⟨r.group_id % 256, Nat.mod_lt _ (by decide)⟩ : Byte)]
    ++ r.pad ++ wr_u32 r.sequence_num ++ wr_u32 r.timestamp

/-- The read `recv_data->sender_id` as a `char*` into the received buffer. -/
def sender_id (recv_data : List Byte) : List Byte := recv_data.drop offsetof_sender_id

/-- The read `recv_data->message` as a `char*` into the received buffer. -/
def message (recv_data : List Byte) : List Byte := recv_data.drop offsetof_message

/-- The read `recv_data->message_type`. -/
def message_type (recv_data : List Byte) : Nat := rd_u8 recv_data offsetof_message_type

/-- The read `recv_data->group_id`. -/
def group_id (recv_data : List Byte) : Nat := rd_u8 recv_data offsetof_group_id

/-- The read `recv_data->sequence_num`. -/
def sequence_num (recv_data : List Byte) : Nat := rd_u32 recv_data offsetof_sequence_num

/-- The read `recv_data->timestamp`. -/
def timestamp (recv_data : List Byte) : Nat := rd_u32 recv_data offsetof_timestamp

/-- The `ESP_LOGx` lines of the group receiver, one constructor per call site, carrying the
values that are formatted. -/
inductive log_line where
  | invalid_packet
  | duplicate_ignored (seq : Nat)
  | not_for_me (group : Nat)
  | pkt_from (mac : mac_addr_t) (rssi : Int)
  | sender (text : List Byte)
  | msg (text : List Byte)
  | type_str (s : String)
  | group (g : Nat)
  | sequence (seq : Nat)
  | processing_command
  | alert_received (text : List Byte)
  | separator
  | sending_reply (text : List Byte)
  | send_failed (err : Int)
deriving DecidableEq, Repr

/-- What the group receiver does to the outside. -/
inductive Effect where
  | esp_log (level : log_level) (line : log_line)
  | esp_now_send (peer_addr : mac_addr_t) (data : List Byte) (len : Nat)
deriving DecidableEq, Repr

/-- Answers of the environment during one callback: the reading of `esp_timer_get_time()`
(microseconds since boot) and the `esp_err_t` returned by `esp_now_send` (`ESP_OK` is 0). -/
structure env_t where
  timer_us : Nat
  send_err : Int
deriving DecidableEq, Repr

/-- The text `"Command received and processed"` passed to `send_reply`. -/
def ACK_TEXT : List Byte := c_literal "Command received and processed"

/-- Lines 123 to 131 of `send_reply`: `memset` of the object to zero, the two `strncpy` calls
and the four field stores. The timestamp is the `int64_t` clock converted to
`unsigned long long`, divided by `1000ULL` and cast to `uint32_t`. -/
def build_reply (env : env_t) (reply_message : List Byte) : broadcast_data_t :=
  let zeroed : broadcast_data_t :=
    { sender_id := List.replicate sizeof_sender_id 0
      message := List.replicate sizeof_message 0
      message_type := 0
      group_id := 0
      pad := List.replicate 2 0
      sequence_num := 0
      timestamp := 0 }
  { zeroed with
    sender_id := strncpy zeroed.sender_id MY_NODE_ID (sizeof_sender_id - 1)
    message := strncpy zeroed.message reply_message (sizeof_message - 1)
    message_type := 1
    group_id := MY_GROUP_ID
    sequence_num := 0
    timestamp := (env.timer_us % 18446744073709551616) / 1000 % 4294967296 }

/-- The function `send_reply(target_mac, reply_message)`. -/
def send_reply (env : env_t) (target_mac : Option mac_addr_t)
    (reply_message : Option (List Byte)) : List Effect :=
  match target_mac, reply_message with
  | some target, some text =>
    let reply_data := build_reply env text
    [Effect.esp_log log_level.I (log_line.sending_reply (c_str text)),
     Effect.esp_now_send target (to_bytes reply_data) sizeof_broadcast_data_t]
      ++ (if env.send_err ≠ 0 then
            [Effect.esp_log log_level.E (log_line.send_failed env.send_err)]
          else [])
  | _, _ => []

/-- The `switch` of lines 94 to 99 choosing `msg_type_str`. -/
def msg_type_str (mt : Nat) : String :=
  if mt = 1 then "INFO" else if mt = 2 then "COMMAND" else if mt = 3 then "ALERT" else "UNKNOWN"

/-- Lines 86 to 102: the lines logged for a frame that passed both checks. The two `%s`
arguments are pointers into the received buffer, so each text runs from the start of its
field to the first zero byte found from there on. -/
def display (recv_info : esp_now_recv_info_t) (recv_data : List Byte) : List Effect :=
  [Effect.esp_log log_level.I
     (log_line.pkt_from recv_info.src_addr
        (match recv_info.rx_ctrl with
         | some rx => rx.rssi
         | none => 0)),
   Effect.esp_log log_level.I (log_line.sender (c_str (sender_id recv_data))),
   Effect.esp_log log_level.I (log_line.msg (c_str (message recv_data))),
   Effect.esp_log log_level.I (log_line.type_str (msg_type_str (message_type recv_data))),
   Effect.esp_log log_level.I (log_line.group (group_id recv_data)),
   Effect.esp_log log_level.I (log_line.sequence (sequence_num recv_data))]

/-- Lines 104 to 113: the reaction chosen by `message_type`. -/
def dispatch (env : env_t) (recv_info : esp_now_recv_info_t) (recv_data : List Byte) :
    List Effect :=
  if message_type recv_data = 2 then
    Effect.esp_log log_level.I log_line.processing_command
      :: send_reply env (some recv_info.src_addr) (some ACK_TEXT)
  else if message_type recv_data = 3 then
    [Effect.esp_log log_level.W (log_line.alert_received (c_str (message recv_data)))]
  else []

/-- Outcome of one call of `on_data_recv`: the value of the global `last_sequence` on return
and the calls made, in order. -/
structure outcome_t where
  last_sequence : Nat
  effects : List Effect
deriving DecidableEq, Repr

/-- The callback `on_data_recv(recv_info, data, len)` run with the global `last_sequence`
holding the given value. The guard of line 63, `!recv_info || !data || len < (int)sizeof(...)`,
is the pattern match on the two pointers followed by the length comparison. -/
def on_data_recv (env : env_t) (last_sequence : Nat)
    (recv_info : Option esp_now_recv_info_t) (data : Option (List Byte)) (len : Int) :
    outcome_t :=
  match recv_info, data with
  | some info, some recv_data =>
    if len < (sizeof_broadcast_data_t : Int) then
      ⟨last_sequence, [Effect.esp_log log_level.W log_line.invalid_packet]⟩
    else if sequence_num recv_data ≤ last_sequence then
      ⟨last_sequence,
        [Effect.esp_log log_level.W (log_line.duplicate_ignored (sequence_num recv_data))]⟩
    else
      let last_sequence := sequence_num recv_data
      let for_me := group_id recv_data == 0 || group_id recv_data == MY_GROUP_ID
      if !for_me then
        ⟨last_sequence, [Effect.esp_log log_level.I (log_line.not_for_me (group_id recv_data))]⟩
      else
        ⟨last_sequence,
          display info recv_data ++ dispatch env info recv_data
            ++ [Effect.esp_log log_level.I log_line.separator]⟩
  | _, _ => ⟨last_sequence, [Effect.esp_log log_level.W log_line.invalid_packet]⟩

/-- The replies handed to the link layer: destination and payload of each `esp_now_send`. -/
def replies : List Effect → List (mac_addr_t × List Byte)
  | [] => []
  | Effect.esp_now_send peer data _ :: rest => (peer, data) :: replies rest
  | Effect.esp_log _ _ :: rest => replies rest

/-- Whether the run reached the message-type dispatch of line 105: the line logged last
before it, the sequence line of line 102, is in the trace. -/
def reached_dispatch (effects : List Effect) : Bool :=
  effects.any (fun e =>
    match e with
    | Effect.esp_log _ (log_line.sequence _) => true
    | _ => false)

/-- One invocation of the callback by the link layer: its three arguments and what the
environment answers while it runs. -/
structure call_t where
  env : env_t
  recv_info : Option esp_now_recv_info_t
  data : Option (List Byte)
  len : Int
deriving DecidableEq, Repr

/-- The callback invoked once per received frame, one call after the other, on the global
`last_sequence`: each call starts from the value the previous one left. The outcome is the
final value and everything done, in order. -/
def run (last_sequence : Nat) : List call_t → outcome_t
  | [] => ⟨last_sequence, []⟩
  | c :: rest =>
    ⟨(run (on_data_recv c.env last_sequence c.recv_info c.data c.len).last_sequence
        rest).last_sequence,
     (on_data_recv c.env last_sequence c.recv_info c.data c.len).effects
       ++ (run (on_data_recv c.env last_sequence c.recv_info c.data c.len).last_sequence
            rest).effects⟩

/-- The sequence numbers of the frames that reached the dispatch, in order of arrival: the
values printed by the sequence line of line 102. -/
def admitted_sequence_nums : List Effect → List Nat
  | [] => []
  | Effect.esp_log _ (log_line.sequence seq) :: rest => seq :: admitted_sequence_nums rest
  | _ :: rest => admitted_sequence_nums rest

end espnow_receiver_g1

/-! ## The LED / telemetry receiver, `src/espnow_receiver/main/main.c` -/

namespace espnow_receiver

open espnow

/-- `#define LED_PIN GPIO_NUM_2`. -/
def LED_PIN : Nat := 2

/-- The struct `led_control_t`: `command[16]`, `led_state`, `brightness`. -/
structure led_control_t where
  command : List Byte
  led_state : Nat
  brightness : Nat
deriving DecidableEq, Repr

/-- The struct `sensor_data_t`; the two floats are kept as 32-bit patterns. -/
structure sensor_data_t where
  temperature : Nat
  humidity : Nat
  light_level : Int
  sensor_id : List Byte
  timestamp_ms : Nat
deriving DecidableEq, Repr

/-- The struct `esp_now_data_t`: `message[200]`, `counter`, `sensor_value`. -/
structure esp_now_data_t where
  message : List Byte
  counter : Int
  sensor_value : Nat
deriving DecidableEq, Repr

/-- The struct `sensor_payload_160_t`: `message[160]`, `counter`, `sensor_value`. -/
structure sensor_payload_160_t where
  message : List Byte
  counter : Int
  sensor_value : Nat
deriving DecidableEq, Repr

/-- `sizeof(led_control_t)`. -/
def sizeof_led_control_t : Nat := 18

/-- `sizeof(sensor_data_t)`: 4 + 4 + 4 + 10 + 2 (padding) + 4. -/
def sizeof_sensor_data_t : Nat := 28

/-- `sizeof(esp_now_data_t)`. -/
def sizeof_esp_now_data_t : Nat := 208

/-- `sizeof(sensor_payload_160_t)`. -/
def sizeof_sensor_payload_160_t : Nat := 168

/-- The copy `memcpy(&cmd, data, sizeof(cmd))` into a `led_control_t`. -/
def load_led_control (data : List Byte) : led_control_t :=
  { command := data.take 16
    led_state := rd_u8 data 16
    brightness := rd_u8 data 17 }

/-- The copy `memcpy(&s, data, sizeof(s))` into a `sensor_data_t`. -/
def load_sensor_data (data : List Byte) : sensor_data_t :=
  { temperature := rd_u32 data 0
    humidity := rd_u32 data 4
    light_level := rd_i32 data 8
    sensor_id := (data.drop 12).take 10
    timestamp_ms := rd_u32 data 24 }

/-- The copy `memcpy(&recv_data, data, sizeof(recv_data))` into an `esp_now_data_t`. -/
def load_esp_now_data (data : List Byte) : esp_now_data_t :=
  { message := data.take 200
    counter := rd_i32 data 200
    sensor_value := rd_u32 data 204 }

/-- The copy `memcpy(&s, data, sizeof(s))` into a `sensor_payload_160_t`. -/
def load_sensor_payload_160 (data : List Byte) : sensor_payload_160_t :=
  { message := data.take 160
    counter := rd_i32 data 160
    sensor_value := rd_u32 data 164 }

/-- The `ESP_LOGx` lines of the LED / telemetry receiver, one constructor per call site. -/
inductive log_line where
  | pkt_from (mac : mac_addr_t) (len : Int) (rssi : Int)
  | led (state : String) (brightness : Nat)
  | unknown_led_command (text : List Byte)
  | sensor28 (id : List Byte) (temperature humidity : Nat) (light_level : Int) (ts : Nat)
  | sensor200 (text : List Byte) (cnt : Int) (val : Nat)
  | sensor160 (text : List Byte) (cnt : Int) (val : Nat)
  | unknown_payload_size (len : Int)
deriving DecidableEq, Repr

/-- What the LED / telemetry receiver does to the outside. -/
inductive Effect where
  | esp_log (level : log_level) (line : log_line)
  | gpio_set_level (pin : Nat) (level : Nat)
deriving DecidableEq, Repr

/-- The text `"SET_LED"` the command is compared with. -/
def SET_LED : List Byte := c_literal "SET_LED"

/-- Lines 64 to 77: the branch taken for a frame of `sizeof(led_control_t)` bytes. -/
def handle_led (data : List Byte) : List Effect :=
  let cmd := load_led_control data
  let cmd := { cmd with command := cmd.command.set (16 - 1) 0 }
  if strcmp_eq cmd.command SET_LED then
    [Effect.gpio_set_level LED_PIN (if cmd.led_state ≠ 0 then 1 else 0),
     Effect.esp_log log_level.I
       (log_line.led (if cmd.led_state ≠ 0 then "ON" else "OFF") cmd.brightness)]
  else
    [Effect.esp_log log_level.W (log_line.unknown_led_command (c_str cmd.command))]

/-- The callback `on_data_recv(info, data, len)` of the LED / telemetry receiver. -/
def on_data_recv (info : Option esp_now_recv_info_t) (data : Option (List Byte)) (len : Int) :
    List Effect :=
  match info, data with
  | some info, some data =>
    if len ≤ 0 then []
    else
      let mac := info.src_addr
      let rssi : Int :=
        match info.rx_ctrl with
        | some rx => rx.rssi
        | none => 0
      Effect.esp_log log_level.I (log_line.pkt_from mac len rssi) ::
        (if len = (sizeof_led_control_t : Int) then
          handle_led data
        else if len = (sizeof_sensor_data_t : Int) then
          let s := load_sensor_data data
          [Effect.esp_log log_level.I
             (log_line.sensor28 (c_str_prec 10 s.sensor_id) s.temperature s.humidity
                s.light_level s.timestamp_ms)]
        else if len = (sizeof_esp_now_data_t : Int) then
          let recv_data := load_esp_now_data data
          [Effect.esp_log log_level.I
             (log_line.sensor200 (c_str_prec 200 recv_data.message) recv_data.counter
                recv_data.sensor_value)]
        else if len = (sizeof_sensor_payload_160_t : Int) then
          let s := load_sensor_payload_160 data
          [Effect.esp_log log_level.I
             (log_line.sensor160 (c_str_prec 160 s.message) s.counter s.sensor_value)]
        else
          [Effect.esp_log log_level.W (log_line.unknown_payload_size len)])
  | _, _ => []

/-- The writes to the LED output: pin and level of each `gpio_set_level`. -/
def gpio_writes : List Effect → List (Nat × Nat)
  | [] => []
  | Effect.gpio_set_level pin level :: rest => (pin, level) :: gpio_writes rest
  | Effect.esp_log _ _ :: rest => gpio_writes rest

/-- Whether a logged line is a telemetry observation (one of the three sensor lines). -/
def is_telemetry : log_line → Bool
  | log_line.sensor28 _ _ _ _ _ => true
  | log_line.sensor200 _ _ _ => true
  | log_line.sensor160 _ _ _ => true
  | _ => false

/-- The telemetry observations of a run. -/
def telemetry : List Effect → List log_line
  | [] => []
  | Effect.esp_log _ line :: rest =>
    if is_telemetry line then line :: telemetry rest else telemetry rest
  | Effect.gpio_set_level _ _ :: rest => telemetry rest

/-- The warnings of a run: the lines logged with `ESP_LOGW`. -/
def warnings : List Effect → List log_line
  | [] => []
  | Effect.esp_log log_level.W line :: rest => line :: warnings rest
  | _ :: rest => warnings rest

/-- The bytes a logged line prints as text through `%s` or `%.*s`, if it has such an
argument. -/
def text_of : log_line → Option (List Byte)
  | log_line.unknown_led_command text => some text
  | log_line.sensor28 id _ _ _ _ => some id
  | log_line.sensor200 text _ _ => some text
  | log_line.sensor160 text _ _ => some text
  | _ => none

/-- The texts printed during a run, in order. -/
def texts : List Effect → List (List Byte)
  | [] => []
  | Effect.esp_log _ line :: rest =>
    match text_of line with
    | some text => text :: texts rest
    | none => texts rest
  | Effect.gpio_set_level _ _ :: rest => texts rest

end espnow_receiver

/-! ## Concrete inputs used to exercise the theorems -/

namespace espnow

/-- A source description: the address of the broadcaster named in the group receiver, no
`rx_ctrl`. -/
def sample_info : esp_now_recv_info_t :=
  { src_addr := ⟨0x24, 0x6F, 0x28, 0xAA, 0xBB, 0xCC⟩
    rx_ctrl := none }

end espnow

namespace espnow_receiver_g1

open espnow

/-- A 212-byte frame with empty sender and message texts, the given message type, group and
sequence number, and timestamp 0. -/
def sample_frame (mt gid : Byte) (seq : Nat) : List Byte :=
  List.replicate 200 0 ++ [mt, gid, 0, 0] ++ wr_u32 seq ++ wr_u32 0

/-- An environment: one second after boot, `esp_now_send` answers `ESP_OK`. -/
def sample_env : env_t :=
  { timer_us := 1000000
    send_err := 0 }

end espnow_receiver_g1

namespace espnow_receiver

open espnow

/-- An 18-byte LED frame: the command text padded with zero bytes to 16 bytes, then the
state byte and the brightness byte. -/
def sample_led_frame (text : List Byte) (state brightness : Byte) : List Byte :=
  text.take 16 ++ List.replicate (16 - text.length) 0 ++ [state, brightness]

/-- A 28-byte telemetry frame: temperature `0x41BC0000` (the binary32 pattern of 23.5),
humidity `0x42700000` (the pattern of 60.0), light level 300, the given sensor identifier
padded with zero bytes to 10 bytes, the two given padding bytes, and timestamp 1000 ms. -/
def sample_sensor_frame (id : List Byte) (pad0 pad1 : Byte) : List Byte :=
  [0x00, 0x00, 0xBC, 0x41] ++ [0x00, 0x00, 0x70, 0x42] ++ wr_u32 300
    ++ (id.take 10 ++ List.replicate (10 - id.length) 0) ++ [pad0, pad1] ++ wr_u32 1000

end espnow_receiver

/-! ## Lemmas on C strings and loads -/

namespace espnow

/-- The text of a C string holds no zero byte. -/
theorem c_str_ne_zero (p : List Byte) : ∀ x ∈ c_str p, x ≠ 0 := by
  intro x hx
  have h := List.mem_takeWhile_imp hx
  simpa using h

/-- Reading a buffer that holds a zero-free text followed by a zero byte gives that text. -/
theorem c_str_append_zero (a b : List Byte) (ha : ∀ x ∈ a, x ≠ 0) :
    c_str (a ++ 0 :: b) = a := by
  induction a with
  | nil => simp [c_str]
  | cons x xs ih =>
    have hx : x ≠ 0 := ha x (List.mem_cons_self _ _)
    have hxs : ∀ y ∈ xs, y ≠ 0 := fun y hy => ha y (List.mem_cons_of_mem _ hy)
    have ih2 := ih hxs
    simp only [c_str] at ih2 ⊢
    simp [List.takeWhile_cons, hx, ih2]

/-- The destination keeps its size under `strncpy` when `n` is within it. -/
theorem strncpy_length (dest src : List Byte) (n : Nat) (h : n ≤ dest.length) :
    (strncpy dest src n).length = dest.length := by
  simp only [strncpy, List.length_append, List.length_replicate, List.length_take,
    List.length_drop]
  omega

/-- When the source text is shorter than `n`, `strncpy` writes the text and then a zero. -/
theorem strncpy_short (dest src : List Byte) (n : Nat) (h : (c_str src).length < n) :
    strncpy dest src n
      = c_str src ++ 0 :: (List.replicate (n - (c_str src).length - 1) 0 ++ dest.drop n) := by
  have ht : (c_str src).take n = c_str src := List.take_of_length_le (Nat.le_of_lt h)
  have hr : List.replicate (n - (c_str src).length) (0 : Byte)
      = 0 :: List.replicate (n - (c_str src).length - 1) 0 := by
    have : n - (c_str src).length = (n - (c_str src).length - 1) + 1 := by omega
    rw [this, List.replicate_succ]
    simp
  simp only [strncpy, ht, hr]
  simp

/-- Reading back a short text copied with `strncpy`, whatever follows the destination. -/
theorem c_str_strncpy_short (dest src rest : List Byte) (n : Nat)
    (h : (c_str src).length < n) : c_str (strncpy dest src n ++ rest) = c_str src := by
  rw [strncpy_short dest src n h]
  simp only [List.append_assoc, List.cons_append]
  exact c_str_append_zero _ _ (c_str_ne_zero src)

/-- A byte load past a leading block of known size reads the block that follows. -/
theorem rd_u8_append (a b : List Byte) (n k : Nat) (h : a.length = n) :
    rd_u8 (a ++ b) (n + k) = rd_u8 b k := by
  subst h
  simp [rd_u8, List.getD_eq_getElem?_getD, List.getElem?_append_right]

/-- A word load past a leading block of known size reads the block that follows. -/
theorem rd_u32_append (a b : List Byte) (n k : Nat) (h : a.length = n) :
    rd_u32 (a ++ b) (n + k) = rd_u32 b k := by
  simp only [rd_u32, Nat.add_assoc, rd_u8_append a b n _ h]

end espnow

/-! ## Theorems about the group receiver -/

namespace espnow_receiver_g1

open espnow

/-- The replies of a concatenation of traces. -/
theorem replies_append (xs ys : List Effect) :
    replies (xs ++ ys) = replies xs ++ replies ys := by
  induction xs with
  | nil => rfl
  | cons x xs ih =>
    cases x with
    | esp_log l line => simpa [replies] using ih
    | esp_now_send p d n => simp [replies, ih]

/-- The lines logged for an accepted frame contain no reply. -/
theorem replies_display (info : esp_now_recv_info_t) (frame : List Byte) :
    replies (display info frame) = [] := by
  simp [display, replies]

/-- The lines logged for an accepted frame contain the sequence line. -/
theorem reached_dispatch_display (info : esp_now_recv_info_t) (frame : List Byte)
    (rest : List Effect) : reached_dispatch (display info frame ++ rest) = true := by
  simp [display, reached_dispatch]

/-- A frame of at least 212 bytes passes the length comparison of line 63. -/
theorem length_test_passes (frame : List Byte) (hlen : 212 ≤ frame.length) :
    ¬ ((frame.length : Int) < (sizeof_broadcast_data_t : Int)) := by
  simp only [sizeof_broadcast_data_t]
  omega

/-- A frame of at least 212 bytes whose sequence number is at most `last_sequence` is dropped
with the duplicate warning and `last_sequence` is not written. -/
theorem on_data_recv_duplicate (env : env_t) (last_sequence : Nat)
    (info : esp_now_recv_info_t) (frame : List Byte)
    (hlen : 212 ≤ frame.length) (hseq : sequence_num frame ≤ last_sequence) :
    on_data_recv env last_sequence (some info) (some frame) (frame.length : Int)
      = ⟨last_sequence,
          [Effect.esp_log log_level.W (log_line.duplicate_ignored (sequence_num frame))]⟩ := by
  have h := length_test_passes frame hlen
  simp only [on_data_recv, if_neg h, if_pos hseq]

/-- C1: in the group receiver, a frame of at least 212 bytes whose `sequence_num` is at most
`last_sequence` is rejected as a duplicate: the only thing done is the duplicate warning, the
dispatch is not reached, no reply is sent and `last_sequence` keeps its value. -/
theorem g1_duplicate_rejected (env : env_t) (last_sequence : Nat)
    (info : esp_now_recv_info_t) (frame : List Byte)
    (hlen : 212 ≤ frame.length) (hseq : sequence_num frame ≤ last_sequence) :
    on_data_recv env last_sequence (some info) (some frame) (frame.length : Int)
        = ⟨last_sequence,
            [Effect.esp_log log_level.W (log_line.duplicate_ignored (sequence_num frame))]⟩
      ∧ reached_dispatch
          (on_data_recv env last_sequence (some info) (some frame)
            (frame.length : Int)).effects = false
      ∧ replies
          (on_data_recv env last_sequence (some info) (some frame)
            (frame.length : Int)).effects = []
      ∧ (on_data_recv env last_sequence (some info) (some frame)
            (frame.length : Int)).last_sequence = last_sequence := by
  rw [on_data_recv_duplicate env last_sequence info frame hlen hseq]
  exact ⟨rfl, rfl, rfl, rfl⟩

/-- Witness of C1: sequence number 5 arriving when `last_sequence` is 7. -/
theorem g1_duplicate_rejected_witness :
    on_data_recv sample_env 7 (some sample_info) (some (sample_frame 2 0 5))
        ((sample_frame 2 0 5).length : Int)
        = ⟨7, [Effect.esp_log log_level.W
                (log_line.duplicate_ignored (sequence_num (sample_frame 2 0 5)))]⟩
      ∧ reached_dispatch
          (on_data_recv sample_env 7 (some sample_info) (some (sample_frame 2 0 5))
            ((sample_frame 2 0 5).length : Int)).effects = false
      ∧ replies
          (on_data_recv sample_env 7 (some sample_info) (some (sample_frame 2 0 5))
            ((sample_frame 2 0 5).length : Int)).effects = []
      ∧ (on_data_recv sample_env 7 (some sample_info) (some (sample_frame 2 0 5))
            ((sample_frame 2 0 5).length : Int)).last_sequence = 7 :=
  g1_duplicate_rejected sample_env 7 sample_info (sample_frame 2 0 5) (by decide) (by decide)

/-- A frame of at least 212 bytes with a fresh sequence number and a group that is 0 or
`MY_GROUP_ID` runs the whole body: its lines, the dispatch and the closing separator, with
`last_sequence` set to its sequence number. -/
theorem on_data_recv_accepted (env : env_t) (last_sequence : Nat)
    (info : esp_now_recv_info_t) (frame : List Byte)
    (hlen : 212 ≤ frame.length) (hseq : last_sequence < sequence_num frame)
    (hgrp : group_id frame = 0 ∨ group_id frame = MY_GROUP_ID) :
    on_data_recv env last_sequence (some info) (some frame) (frame.length : Int)
      = ⟨sequence_num frame,
          display info frame ++ dispatch env info frame
            ++ [Effect.esp_log log_level.I log_line.separator]⟩ := by
  have h := length_test_passes frame hlen
  have hs : ¬ (sequence_num frame ≤ last_sequence) := Nat.not_le.mpr hseq
  have hg : (!(group_id frame == 0 || group_id frame == MY_GROUP_ID)) = false := by
    rcases hgrp with h0 | h1
    · simp [h0]
    · simp [h1]
  simp only [on_data_recv, if_neg h, if_neg hs, hg]
  rfl

/-- A frame of at least 212 bytes with a fresh sequence number and a group that is neither 0
nor `MY_GROUP_ID` is dropped with the not-for-me line, after `last_sequence` was set. -/
theorem on_data_recv_other_group (env : env_t) (last_sequence : Nat)
    (info : esp_now_recv_info_t) (frame : List Byte)
    (hlen : 212 ≤ frame.length) (hseq : last_sequence < sequence_num frame)
    (hg0 : group_id frame ≠ 0) (hg1 : group_id frame ≠ MY_GROUP_ID) :
    on_data_recv env last_sequence (some info) (some frame) (frame.length : Int)
      = ⟨sequence_num frame,
          [Effect.esp_log log_level.I (log_line.not_for_me (group_id frame))]⟩ := by
  have h := length_test_passes frame hlen
  have hs : ¬ (sequence_num frame ≤ last_sequence) := Nat.not_le.mpr hseq
  have hg : (!(group_id frame == 0 || group_id frame == MY_GROUP_ID)) = true := by
    simp [hg0, hg1]
  simp only [on_data_recv, if_neg h, if_neg hs, hg]
  rfl

/-- C2: in the group receiver, a frame of at least 212 bytes with `sequence_num` above
`last_sequence` and `group_id` equal to 0 or to `MY_GROUP_ID` is admitted: the run logs the
frame and reaches the message-type dispatch, and `last_sequence` becomes exactly the
sequence number of the frame. -/
theorem g1_fresh_frame_admitted (env : env_t) (last_sequence : Nat)
    (info : esp_now_recv_info_t) (frame : List Byte)
    (hlen : 212 ≤ frame.length) (hseq : last_sequence < sequence_num frame)
    (hgrp : group_id frame = 0 ∨ group_id frame = MY_GROUP_ID) :
    (on_data_recv env last_sequence (some info) (some frame) (frame.length : Int)).effects
        = display info frame ++ dispatch env info frame
            ++ [Effect.esp_log log_level.I log_line.separator]
      ∧ reached_dispatch
          (on_data_recv env last_sequence (some info) (some frame)
            (frame.length : Int)).effects = true
      ∧ (on_data_recv env last_sequence (some info) (some frame)
            (frame.length : Int)).last_sequence = sequence_num frame := by
  rw [on_data_recv_accepted env last_sequence info frame hlen hseq hgrp]
  refine ⟨rfl, ?_, rfl⟩
  simp only [List.append_assoc]
  exact reached_dispatch_display info frame _

/-- Witness of C2: sequence number 5, group `MY_GROUP_ID`, arriving when `last_sequence`
is 4. -/
theorem g1_fresh_frame_admitted_witness :
    (on_data_recv sample_env 4 (some sample_info) (some (sample_frame 1 1 5))
        ((sample_frame 1 1 5).length : Int)).effects
        = display sample_info (sample_frame 1 1 5)
            ++ dispatch sample_env sample_info (sample_frame 1 1 5)
            ++ [Effect.esp_log log_level.I log_line.separator]
      ∧ reached_dispatch
          (on_data_recv sample_env 4 (some sample_info) (some (sample_frame 1 1 5))
            ((sample_frame 1 1 5).length : Int)).effects = true
      ∧ (on_data_recv sample_env 4 (some sample_info) (some (sample_frame 1 1 5))
            ((sample_frame 1 1 5).length : Int)).last_sequence
          = sequence_num (sample_frame 1 1 5) :=
  g1_fresh_frame_admitted sample_env 4 sample_info (sample_frame 1 1 5) (by decide)
    (by decide) (Or.inr (by decide))

/-- C3: in the group receiver, a frame of at least 212 bytes whose `group_id` is neither 0
nor `MY_GROUP_ID` is rejected (the dispatch is not reached) and no reply is sent, whatever
`last_sequence`, the sequence number and the message type are: the run consists of the
duplicate warning alone or of the not-for-me line alone. -/
theorem g1_other_group_rejected (env : env_t) (last_sequence : Nat)
    (info : esp_now_recv_info_t) (frame : List Byte)
    (hlen : 212 ≤ frame.length)
    (hg0 : group_id frame ≠ 0) (hg1 : group_id frame ≠ MY_GROUP_ID) :
    reached_dispatch
        (on_data_recv env last_sequence (some info) (some frame)
          (frame.length : Int)).effects = false
      ∧ replies
          (on_data_recv env last_sequence (some info) (some frame)
            (frame.length : Int)).effects = []
      ∧ ((on_data_recv env last_sequence (some info) (some frame)
            (frame.length : Int)).effects
          = [Effect.esp_log log_level.W (log_line.duplicate_ignored (sequence_num frame))]
        ∨ (on_data_recv env last_sequence (some info) (some frame)
            (frame.length : Int)).effects
          = [Effect.esp_log log_level.I (log_line.not_for_me (group_id frame))]) := by
  by_cases hseq : sequence_num frame ≤ last_sequence
  · rw [on_data_recv_duplicate env last_sequence info frame hlen hseq]
    exact ⟨rfl, rfl, Or.inl rfl⟩
  · rw [on_data_recv_other_group env last_sequence info frame hlen (Nat.not_le.mp hseq) hg0 hg1]
    exact ⟨rfl, rfl, Or.inr rfl⟩

/-- Witness of C3: a Command (message type 2) for group 2 on the node of group 1, with a
fresh sequence number. -/
theorem g1_other_group_rejected_witness :
    reached_dispatch
        (on_data_recv sample_env 0 (some sample_info) (some (sample_frame 2 2 9))
          ((sample_frame 2 2 9).length : Int)).effects = false
      ∧ replies
          (on_data_recv sample_env 0 (some sample_info) (some (sample_frame 2 2 9))
            ((sample_frame 2 2 9).length : Int)).effects = []
      ∧ ((on_data_recv sample_env 0 (some sample_info) (some (sample_frame 2 2 9))
            ((sample_frame 2 2 9).length : Int)).effects
          = [Effect.esp_log log_level.W
              (log_line.duplicate_ignored (sequence_num (sample_frame 2 2 9)))]
        ∨ (on_data_recv sample_env 0 (some sample_info) (some (sample_frame 2 2 9))
            ((sample_frame 2 2 9).length : Int)).effects
          = [Effect.esp_log log_level.I
              (log_line.not_for_me (group_id (sample_frame 2 2 9)))]) :=
  g1_other_group_rejected sample_env 0 sample_info (sample_frame 2 2 9) (by decide)
    (by decide) (by decide)

/-- C4, as stated, fails: a 212-byte frame for group 2 with sequence number 5, arriving when
`last_sequence` is 0, is dropped by the group filter, yet `last_sequence` is 5 afterwards. -/
theorem g1_other_group_last_sequence_changes :
    212 ≤ (sample_frame 1 2 5).length
      ∧ group_id (sample_frame 1 2 5) ≠ 0
      ∧ group_id (sample_frame 1 2 5) ≠ MY_GROUP_ID
      ∧ 0 < sequence_num (sample_frame 1 2 5)
      ∧ (on_data_recv sample_env 0 (some sample_info) (some (sample_frame 1 2 5))
            ((sample_frame 1 2 5).length : Int)).last_sequence = 5
      ∧ (on_data_recv sample_env 0 (some sample_info) (some (sample_frame 1 2 5))
            ((sample_frame 1 2 5).length : Int)).last_sequence ≠ 0 := by
  decide

/-- C4, amended: in the group receiver, a frame of at least 212 bytes whose `group_id` is
neither 0 nor `MY_GROUP_ID` and whose `sequence_num` is above `last_sequence` is dropped by
the group filter (only the not-for-me line is logged, no dispatch, no reply), and
`last_sequence` has become the sequence number of the frame: the sequence is recorded before
the group is looked at. -/
theorem g1_other_group_records_sequence (env : env_t) (last_sequence : Nat)
    (info : esp_now_recv_info_t) (frame : List Byte)
    (hlen : 212 ≤ frame.length) (hseq : last_sequence < sequence_num frame)
    (hg0 : group_id frame ≠ 0) (hg1 : group_id frame ≠ MY_GROUP_ID) :
    (on_data_recv env last_sequence (some info) (some frame)
        (frame.length : Int)).last_sequence = sequence_num frame
      ∧ (on_data_recv env last_sequence (some info) (some frame) (frame.length : Int)).effects
          = [Effect.esp_log log_level.I (log_line.not_for_me (group_id frame))]
      ∧ reached_dispatch
          (on_data_recv env last_sequence (some info) (some frame)
            (frame.length : Int)).effects = false
      ∧ replies
          (on_data_recv env last_sequence (some info) (some frame)
            (frame.length : Int)).effects = [] := by
  rw [on_data_recv_other_group env last_sequence info frame hlen hseq hg0 hg1]
  exact ⟨rfl, rfl, rfl, rfl⟩

/-- Witness of the amended C4: group 2, sequence number 5, `last_sequence` 0. -/
theorem g1_other_group_records_sequence_witness :
    (on_data_recv sample_env 0 (some sample_info) (some (sample_frame 1 2 5))
        ((sample_frame 1 2 5).length : Int)).last_sequence = sequence_num (sample_frame 1 2 5)
      ∧ (on_data_recv sample_env 0 (some sample_info) (some (sample_frame 1 2 5))
            ((sample_frame 1 2 5).length : Int)).effects
          = [Effect.esp_log log_level.I (log_line.not_for_me (group_id (sample_frame 1 2 5)))]
      ∧ reached_dispatch
          (on_data_recv sample_env 0 (some sample_info) (some (sample_frame 1 2 5))
            ((sample_frame 1 2 5).length : Int)).effects = false
      ∧ replies
          (on_data_recv sample_env 0 (some sample_info) (some (sample_frame 1 2 5))
            ((sample_frame 1 2 5).length : Int)).effects = [] :=
  g1_other_group_records_sequence sample_env 0 sample_info (sample_frame 1 2 5) (by decide)
    (by decide) (by decide) (by decide)

/-- The bytes handed to `esp_now_send`: the two text fields, then message type 1, group 1,
two zero padding bytes, sequence number 0 and the timestamp. -/
theorem to_bytes_build_reply (env : env_t) (text : List Byte) :
    to_bytes (build_reply env text)
      = (strncpy (List.replicate 20 0) MY_NODE_ID 19
          ++ strncpy (List.replicate 180 0) text 179)
          ++ ([1, 1, 0, 0] ++ wr_u32 0
            ++ wr_u32 (env.timer_us % 18446744073709551616 / 1000 % 4294967296)) := by
  simp only [to_bytes, build_reply, sizeof_sender_id, sizeof_message, MY_GROUP_ID,
    List.append_assoc]
  rfl

/-- The two text fields of a reply fill 200 bytes. -/
theorem reply_texts_length (text : List Byte) :
    (strncpy (List.replicate 20 0) MY_NODE_ID 19
          ++ strncpy (List.replicate 180 0) text 179).length = 200 := by
  rw [List.length_append, strncpy_length _ _ _ (by simp), strncpy_length _ _ _ (by simp)]
  simp

/-- The `sender_id` field of a reply fills 20 bytes. -/
theorem reply_sender_id_length :
    (strncpy (List.replicate 20 0) MY_NODE_ID 19).length = 20 := by
  rw [strncpy_length _ _ _ (by simp)]
  simp

/-- A reply frame is 212 bytes long. -/
theorem to_bytes_build_reply_length (env : env_t) (text : List Byte) :
    (to_bytes (build_reply env text)).length = 212 := by
  rw [to_bytes_build_reply, List.length_append, reply_texts_length]
  rfl

/-- A reply frame read back has message type 1. -/
theorem message_type_reply (env : env_t) (text : List Byte) :
    message_type (to_bytes (build_reply env text)) = 1 := by
  rw [to_bytes_build_reply, message_type, offsetof_message_type,
    rd_u8_append _ _ 200 0 (reply_texts_length text)]
  rfl

/-- A reply frame read back has group `MY_GROUP_ID`. -/
theorem group_id_reply (env : env_t) (text : List Byte) :
    group_id (to_bytes (build_reply env text)) = MY_GROUP_ID := by
  rw [to_bytes_build_reply, group_id, offsetof_group_id,
    rd_u8_append _ _ 200 1 (reply_texts_length text)]
  rfl

/-- A reply frame read back has sequence number 0. -/
theorem sequence_num_reply (env : env_t) (text : List Byte) :
    sequence_num (to_bytes (build_reply env text)) = 0 := by
  rw [to_bytes_build_reply, sequence_num, offsetof_sequence_num,
    rd_u32_append _ _ 200 4 (reply_texts_length text)]
  rfl

/-- A reply frame read back has the timestamp computed by `send_reply`. -/
theorem timestamp_reply (env : env_t) (text : List Byte) :
    timestamp (to_bytes (build_reply env text))
      = env.timer_us % 18446744073709551616 / 1000 % 4294967296 := by
  rw [to_bytes_build_reply, timestamp, offsetof_timestamp,
    rd_u32_append _ _ 200 8 (reply_texts_length text)]
  simp [rd_u32, rd_u8, wr_u32]
  omega

/-- The call `send_reply` with both pointers set hands exactly one frame to the link layer,
addressed to `target_mac`. -/
theorem replies_send_reply (env : env_t) (target : mac_addr_t) (text : List Byte) :
    replies (send_reply env (some target) (some text))
      = [(target, to_bytes (build_reply env text))] := by
  simp only [send_reply]
  split <;> simp [replies]

/-- The dispatch replies once, to the source address, when the message type is 2. -/
theorem replies_dispatch_command (env : env_t) (info : esp_now_recv_info_t)
    (frame : List Byte) (hmt : message_type frame = 2) :
    replies (dispatch env info frame)
      = [(info.src_addr, to_bytes (build_reply env ACK_TEXT))] := by
  simp only [dispatch, if_pos hmt, replies]
  exact replies_send_reply env info.src_addr ACK_TEXT

/-- The dispatch does not reply when the message type is not 2. -/
theorem replies_dispatch_other (env : env_t) (info : esp_now_recv_info_t)
    (frame : List Byte) (hmt : message_type frame ≠ 2) :
    replies (dispatch env info frame) = [] := by
  simp only [dispatch, if_neg hmt]
  split <;> rfl

/-- The message text a receiver reads in a reply frame is the text given to `send_reply`,
when that text is shorter than 179 bytes. -/
theorem message_text_reply (env : env_t) (text : List Byte)
    (h : (c_str text).length < 179) :
    c_str (message (to_bytes (build_reply env text))) = c_str text := by
  rw [to_bytes_build_reply, message, offsetof_message, List.append_assoc,
    List.drop_left' reply_sender_id_length]
  exact c_str_strncpy_short _ _ _ _ h

/-- C5: in the group receiver, for an admitted frame (at least 212 bytes, fresh sequence
number, group 0 or `MY_GROUP_ID`) a reply is sent if and only if `message_type` is 2; then
exactly one frame is handed to `esp_now_send`, it is addressed to the source address of the
received frame and the message text it carries is `"Command received and processed"`; any
other message type (3, 1 or any other byte) sends nothing. -/
theorem g1_reply_iff_command (env : env_t) (last_sequence : Nat)
    (info : esp_now_recv_info_t) (frame : List Byte)
    (hlen : 212 ≤ frame.length) (hseq : last_sequence < sequence_num frame)
    (hgrp : group_id frame = 0 ∨ group_id frame = MY_GROUP_ID) :
    (replies (on_data_recv env last_sequence (some info) (some frame)
        (frame.length : Int)).effects ≠ [] ↔ message_type frame = 2)
      ∧ (message_type frame = 2 →
          replies (on_data_recv env last_sequence (some info) (some frame)
              (frame.length : Int)).effects
            = [(info.src_addr, to_bytes (build_reply env ACK_TEXT))]
          ∧ c_str (message (to_bytes (build_reply env ACK_TEXT)))
            = c_literal "Command received and processed")
      ∧ (message_type frame ≠ 2 →
          replies (on_data_recv env last_sequence (some info) (some frame)
              (frame.length : Int)).effects = []) := by
  rw [on_data_recv_accepted env last_sequence info frame hlen hseq hgrp]
  simp only [replies_append, replies_display, List.nil_append]
  have hsep : replies [Effect.esp_log log_level.I log_line.separator] = [] := rfl
  rw [hsep, List.append_nil]
  by_cases hmt : message_type frame = 2
  · rw [replies_dispatch_command env info frame hmt]
    refine ⟨⟨fun _ => hmt, fun _ => by simp⟩, fun _ => ⟨rfl, ?_⟩, fun h => absurd hmt h⟩
    rw [message_text_reply env ACK_TEXT (by decide)]
    decide
  · rw [replies_dispatch_other env info frame hmt]
    exact ⟨⟨fun h => absurd rfl h, fun h => absurd h hmt⟩, fun h => absurd h hmt, fun _ => rfl⟩

/-- Witness of C5: a Command (message type 2) for group 0 with sequence number 10, arriving
when `last_sequence` is 0. -/
theorem g1_reply_iff_command_witness :
    (replies (on_data_recv sample_env 0 (some sample_info) (some (sample_frame 2 0 10))
        ((sample_frame 2 0 10).length : Int)).effects ≠ []
        ↔ message_type (sample_frame 2 0 10) = 2)
      ∧ (message_type (sample_frame 2 0 10) = 2 →
          replies (on_data_recv sample_env 0 (some sample_info) (some (sample_frame 2 0 10))
              ((sample_frame 2 0 10).length : Int)).effects
            = [(sample_info.src_addr, to_bytes (build_reply sample_env ACK_TEXT))]
          ∧ c_str (message (to_bytes (build_reply sample_env ACK_TEXT)))
            = c_literal "Command received and processed")
      ∧ (message_type (sample_frame 2 0 10) ≠ 2 →
          replies (on_data_recv sample_env 0 (some sample_info) (some (sample_frame 2 0 10))
              ((sample_frame 2 0 10).length : Int)).effects = []) :=
  g1_reply_iff_command sample_env 0 sample_info (sample_frame 2 0 10) (by decide) (by decide)
    (Or.inl (by decide))

/-- C6: the frame built by `send_reply`, for every message text and every clock value, is
exactly `sizeof(broadcast_data_t)` = 212 bytes long, so it is not below the length the
receiver asks for and the receiver does not drop it as an invalid packet, and read back
through the `broadcast_data_t` layout its `message_type` is 1 (Info). -/
theorem g1_reply_round_trip (env : env_t) (target : mac_addr_t) (text : List Byte) :
    send_reply env (some target) (some text)
        = [Effect.esp_log log_level.I (log_line.sending_reply (c_str text)),
           Effect.esp_now_send target (to_bytes (build_reply env text)) 212]
          ++ (if env.send_err ≠ 0 then
                [Effect.esp_log log_level.E (log_line.send_failed env.send_err)]
              else [])
      ∧ (to_bytes (build_reply env text)).length = sizeof_broadcast_data_t
      ∧ sizeof_broadcast_data_t = 212
      ∧ ¬ (((to_bytes (build_reply env text)).length : Int) < (sizeof_broadcast_data_t : Int))
      ∧ (∀ (env2 : env_t) (last_sequence : Nat) (info : esp_now_recv_info_t),
          (on_data_recv env2 last_sequence (some info) (some (to_bytes (build_reply env text)))
              ((to_bytes (build_reply env text)).length : Int)).effects
            ≠ [Effect.esp_log log_level.W log_line.invalid_packet])
      ∧ message_type (to_bytes (build_reply env text)) = 1 := by
  have hl := to_bytes_build_reply_length env text
  refine ⟨rfl, hl, rfl, length_test_passes _ (Nat.le_of_eq hl.symm), ?_,
    message_type_reply env text⟩
  intro env2 last_sequence info
  have hs : sequence_num (to_bytes (build_reply env text)) ≤ last_sequence := by
    rw [sequence_num_reply]
    exact Nat.zero_le _
  rw [on_data_recv_duplicate env2 last_sequence info _ (Nat.le_of_eq hl.symm) hs]
  simp

/-- C7: for a non-null target address, every message text and every clock reading (a
non-negative `int64_t` count of microseconds), the record sent by `send_reply` has
`message_type` 1, `group_id` `MY_GROUP_ID` = 1, `sequence_num` 0, `timestamp` equal to the
clock divided by 1000 and reduced modulo 2^32, a `sender_id` field holding `"NODE_G1_001"`
followed only by zero bytes, and two zero padding bytes after `group_id`. -/
theorem g1_reply_record_fields (env : env_t) (target : mac_addr_t) (text : List Byte)
    (hclk : env.timer_us < 2 ^ 63) :
    replies (send_reply env (some target) (some text))
        = [(target, to_bytes (build_reply env text))]
      ∧ message_type (to_bytes (build_reply env text)) = 1
      ∧ group_id (to_bytes (build_reply env text)) = MY_GROUP_ID
      ∧ MY_GROUP_ID = 1
      ∧ sequence_num (to_bytes (build_reply env text)) = 0
      ∧ timestamp (to_bytes (build_reply env text)) = env.timer_us / 1000 % 2 ^ 32
      ∧ (to_bytes (build_reply env text)).take 20
          = c_literal "NODE_G1_001" ++ List.replicate 9 0
      ∧ rd_u8 (to_bytes (build_reply env text)) 202 = 0
      ∧ rd_u8 (to_bytes (build_reply env text)) 203 = 0 := by
  refine ⟨replies_send_reply env target text, message_type_reply env text,
    group_id_reply env text, rfl, sequence_num_reply env text, ?_, ?_, ?_, ?_⟩
  · rw [timestamp_reply]
    have h : env.timer_us % 18446744073709551616 = env.timer_us := by
      apply Nat.mod_eq_of_lt
      omega
    rw [h]
    norm_num
  · rw [to_bytes_build_reply, List.append_assoc,
      List.take_left' reply_sender_id_length]
    decide
  · rw [to_bytes_build_reply, rd_u8_append _ _ 200 2 (reply_texts_length text)]
    rfl
  · rw [to_bytes_build_reply, rd_u8_append _ _ 200 3 (reply_texts_length text)]
    rfl

/-- Witness of C7: a reply built one second after boot. -/
theorem g1_reply_record_fields_witness :
    replies (send_reply sample_env (some sample_info.src_addr) (some ACK_TEXT))
        = [(sample_info.src_addr, to_bytes (build_reply sample_env ACK_TEXT))]
      ∧ message_type (to_bytes (build_reply sample_env ACK_TEXT)) = 1
      ∧ group_id (to_bytes (build_reply sample_env ACK_TEXT)) = MY_GROUP_ID
      ∧ MY_GROUP_ID = 1
      ∧ sequence_num (to_bytes (build_reply sample_env ACK_TEXT)) = 0
      ∧ timestamp (to_bytes (build_reply sample_env ACK_TEXT))
          = sample_env.timer_us / 1000 % 2 ^ 32
      ∧ (to_bytes (build_reply sample_env ACK_TEXT)).take 20
          = c_literal "NODE_G1_001" ++ List.replicate 9 0
      ∧ rd_u8 (to_bytes (build_reply sample_env ACK_TEXT)) 202 = 0
      ∧ rd_u8 (to_bytes (build_reply sample_env ACK_TEXT)) 203 = 0 :=
  g1_reply_record_fields sample_env sample_info.src_addr ACK_TEXT (by decide)

end espnow_receiver_g1

/-! ## Lemmas on forced terminators -/

namespace espnow

/-- Forcing a terminator at index `i` cuts the text at `i` bytes. -/
theorem c_str_set_zero (l : List Byte) (i : Nat) :
    c_str (l.set i 0) = (c_str l).take i := by
  induction l generalizing i with
  | nil => simp [c_str]
  | cons x xs ih =>
    cases i with
    | zero => simp [c_str, List.takeWhile_cons]
    | succ i =>
      have ih2 := ih i
      simp only [c_str] at ih2 ⊢
      simp only [List.set_cons_succ, List.takeWhile_cons]
      split
      · simp [ih2]
      · simp

/-- Cutting the text at `n` bytes is reading the buffer cut at `n` bytes. -/
theorem c_str_take (l : List Byte) (n : Nat) :
    (c_str l).take n = c_str (l.take n) := by
  induction l generalizing n with
  | nil => simp [c_str]
  | cons x xs ih =>
    cases n with
    | zero => simp [c_str]
    | succ n =>
      have ih2 := ih n
      simp only [c_str] at ih2 ⊢
      simp only [List.take_succ_cons, List.takeWhile_cons]
      split
      · simp [ih2]
      · simp

/-- A buffer reads as the zero-free text `s` exactly when it starts with `s` and the byte
after it, if any, is zero. -/
theorem c_str_eq_iff (l s : List Byte) (hs : ∀ x ∈ s, x ≠ 0) :
    c_str l = s ↔ l.take s.length = s ∧ l.getD s.length 0 = 0 := by
  induction s generalizing l with
  | nil =>
    cases l with
    | nil => simp [c_str]
    | cons x xs => simp [c_str, List.takeWhile_cons]
  | cons y ys ih =>
    have hy : y ≠ 0 := hs y (List.mem_cons_self _ _)
    have hys : ∀ z ∈ ys, z ≠ 0 := fun z hz => hs z (List.mem_cons_of_mem _ hz)
    cases l with
    | nil => simp [c_str]
    | cons x xs =>
      have ih2 := ih xs hys
      simp only [c_str] at ih2 ⊢
      simp only [List.takeWhile_cons, List.length_cons, List.take_succ_cons,
        List.getD_cons_succ, List.cons.injEq]
      by_cases hx : x = 0
      · subst hx
        simp [Ne.symm hy]
      · simp [hx, ih2, and_assoc]

end espnow

/-! ## Theorems about the LED / telemetry receiver -/

namespace espnow_receiver

open espnow

/-- The text compared by `strcmp` in the LED branch is the command field cut to 15 bytes and
read up to its first zero byte. -/
theorem led_command_text (data : List Byte) :
    c_str ((data.take 16).set (16 - 1) 0) = c_str (data.take 15) := by
  rw [c_str_set_zero, c_str_take, List.take_take]
  rfl

/-- The LED branch, by cases on the command text. -/
theorem handle_led_eq (data : List Byte) :
    handle_led data
      = if c_str (data.take 15) = SET_LED then
          [Effect.gpio_set_level LED_PIN (if rd_u8 data 16 ≠ 0 then 1 else 0),
           Effect.esp_log log_level.I
             (log_line.led (if rd_u8 data 16 ≠ 0 then "ON" else "OFF") (rd_u8 data 17))]
        else
          [Effect.esp_log log_level.W (log_line.unknown_led_command (c_str (data.take 15)))] := by
  have hlit : c_str SET_LED = SET_LED := by decide
  simp only [handle_led, load_led_control, strcmp_eq, led_command_text, hlit, beq_iff_eq]

/-- A call with both pointers set and an 18-byte frame logs the source and runs the LED
branch. -/
theorem led_on_data_recv_18 (info : esp_now_recv_info_t) (frame : List Byte)
    (hlen : frame.length = 18) :
    on_data_recv (some info) (some frame) (frame.length : Int)
      = Effect.esp_log log_level.I
          (log_line.pkt_from info.src_addr 18
            (match info.rx_ctrl with
             | some rx => rx.rssi
             | none => 0))
        :: handle_led frame := by
  rw [hlen]
  simp [on_data_recv, sizeof_led_control_t]

/-- C8: in the LED / telemetry receiver, for an 18-byte frame whose command field reads
`"SET_LED"`, the LED output is written once, with level 1 when `led_state` is not 0 and level
0 when it is 0; replacing the brightness byte (offset 17) by any value leaves the write
unchanged. -/
theorem led_set_led_drives_output (info : esp_now_recv_info_t) (frame : List Byte)
    (hlen : frame.length = 18) (hcmd : c_str (frame.take 16) = c_literal "SET_LED") :
    gpio_writes (on_data_recv (some info) (some frame) (frame.length : Int))
        = [(LED_PIN, if rd_u8 frame 16 ≠ 0 then 1 else 0)]
      ∧ ∀ b : Byte,
          gpio_writes (on_data_recv (some info) (some (frame.set 17 b))
              ((frame.set 17 b).length : Int))
            = gpio_writes (on_data_recv (some info) (some frame) (frame.length : Int)) := by
  have key : ∀ f : List Byte, f.length = 18 → c_str (f.take 16) = c_literal "SET_LED" →
      gpio_writes (on_data_recv (some info) (some f) (f.length : Int))
        = [(LED_PIN, if rd_u8 f 16 ≠ 0 then 1 else 0)] := by
    intro f hf hc
    have h15 : c_str (f.take 15) = SET_LED := by
      have h := c_str_take (f.take 16) 15
      rw [List.take_take, hc] at h
      rw [show min 15 16 = 15 from rfl] at h
      rw [← h]
      decide
    rw [led_on_data_recv_18 info f hf, handle_led_eq, if_pos h15]
    rfl
  refine ⟨key frame hlen hcmd, ?_⟩
  intro b
  have hl : (frame.set 17 b).length = 18 := by rw [List.length_set]; exact hlen
  have ht : (frame.set 17 b).take 16 = frame.take 16 := by
    rw [List.take_set_of_lt b frame (by decide)]
  have hs : rd_u8 (frame.set 17 b) 16 = rd_u8 frame 16 := by
    simp [rd_u8, List.getD_eq_getElem?_getD, List.getElem?_set]
  rw [key (frame.set 17 b) hl (by rw [ht]; exact hcmd), key frame hlen hcmd, hs]

/-- Witness of C8: the frame `SET_LED`, state 1, brightness 200 drives the LED on. -/
theorem led_set_led_drives_output_witness :
    gpio_writes (on_data_recv (some sample_info)
        (some (sample_led_frame (c_literal "SET_LED") 1 200))
        ((sample_led_frame (c_literal "SET_LED") 1 200).length : Int))
        = [(LED_PIN, if rd_u8 (sample_led_frame (c_literal "SET_LED") 1 200) 16 ≠ 0 then 1
                     else 0)]
      ∧ ∀ b : Byte,
          gpio_writes (on_data_recv (some sample_info)
              (some ((sample_led_frame (c_literal "SET_LED") 1 200).set 17 b))
              (((sample_led_frame (c_literal "SET_LED") 1 200).set 17 b).length : Int))
            = gpio_writes (on_data_recv (some sample_info)
                (some (sample_led_frame (c_literal "SET_LED") 1 200))
                ((sample_led_frame (c_literal "SET_LED") 1 200).length : Int)) :=
  led_set_led_drives_output sample_info (sample_led_frame (c_literal "SET_LED") 1 200)
    (by decide) (by decide)

/-- The command field of an 18-byte frame, cut to 15 bytes, reads `"SET_LED"` exactly when
the first eight bytes of the frame are the seven letters followed by a zero byte. -/
theorem led_command_is_set_led_iff (frame : List Byte) (hlen : frame.length = 18) :
    c_str (frame.take 15) = SET_LED ↔ frame.take 8 = [83, 69, 84, 95, 76, 69, 68, 0] := by
  have hlit : SET_LED = [83, 69, 84, 95, 76, 69, 68] := by decide
  have hnz : ∀ x ∈ SET_LED, x ≠ 0 := by decide
  have h7 : (7 : Nat) < frame.length := by omega
  have h8 : frame.take 8 = frame.take 7 ++ [frame.getD 7 0] := by
    rw [List.take_succ, List.getD_eq_getElem?_getD, List.getElem?_eq_getElem h7]
    rfl
  have hg : (frame.take 15).getD 7 0 = frame.getD 7 0 := by
    simp [List.getD_eq_getElem?_getD, List.getElem?_take]
  have ht : (frame.take 15).take 7 = frame.take 7 := by
    rw [List.take_take]
    rfl
  rw [c_str_eq_iff _ _ hnz, h8, hlit]
  simp only [List.length_cons, List.length_nil, Nat.zero_add, Nat.reduceAdd, ht, hg]
  constructor
  · rintro ⟨ha, hb⟩
    rw [ha, hb]
    rfl
  · intro h
    have hl : (frame.take 7).length = 7 := by
      rw [List.length_take]
      omega
    have h1 : frame.take 7 ++ [frame.getD 7 0]
        = [83, 69, 84, 95, 76, 69, 68] ++ [(0 : Byte)] := h
    have h2 := List.append_inj h1 (by rw [hl]; rfl)
    refine ⟨h2.1, ?_⟩
    simpa using h2.2

/-- C9: in the LED / telemetry receiver, for an 18-byte frame the LED output is written if and
only if the command field, cut to 15 bytes and read up to its first zero byte, is
`"SET_LED"`, that is if and only if bytes 0..7 of the frame are `S E T _ L E D` and a zero
byte; for every other 18-byte frame the run is the source line followed by the warning about
an unknown LED command, and the LED output is not written. -/
theorem led_written_iff_set_led (info : esp_now_recv_info_t) (frame : List Byte)
    (hlen : frame.length = 18) :
    (gpio_writes (on_data_recv (some info) (some frame) (frame.length : Int)) ≠ []
        ↔ c_str (frame.take 15) = c_literal "SET_LED")
      ∧ (c_str (frame.take 15) = c_literal "SET_LED"
        ↔ frame.take 8 = [83, 69, 84, 95, 76, 69, 68, 0])
      ∧ (c_str (frame.take 15) ≠ c_literal "SET_LED" →
          on_data_recv (some info) (some frame) (frame.length : Int)
            = [Effect.esp_log log_level.I
                (log_line.pkt_from info.src_addr 18
                  (match info.rx_ctrl with
                   | some rx => rx.rssi
                   | none => 0)),
               Effect.esp_log log_level.W
                (log_line.unknown_led_command (c_str (frame.take 15)))]
          ∧ warnings (on_data_recv (some info) (some frame) (frame.length : Int))
            = [log_line.unknown_led_command (c_str (frame.take 15))]
          ∧ gpio_writes (on_data_recv (some info) (some frame) (frame.length : Int)) = []) := by
  rw [led_on_data_recv_18 info frame hlen, handle_led_eq]
  refine ⟨?_, led_command_is_set_led_iff frame hlen, ?_⟩
  · by_cases h : c_str (frame.take 15) = SET_LED
    · rw [if_pos h]
      exact ⟨fun _ => h, fun _ => by simp [gpio_writes]⟩
    · rw [if_neg h]
      exact ⟨fun hne => absurd rfl hne, fun he => absurd he h⟩
  · intro h
    have h2 : ¬ c_str (frame.take 15) = SET_LED := h
    rw [if_neg h2]
    exact ⟨rfl, rfl, rfl⟩

/-- Witness of C9: the lower-case command `set_led` is not obeyed. -/
theorem led_written_iff_set_led_witness :
    (gpio_writes (on_data_recv (some sample_info)
          (some (sample_led_frame (c_literal "set_led") 1 200))
          ((sample_led_frame (c_literal "set_led") 1 200).length : Int)) ≠ []
        ↔ c_str ((sample_led_frame (c_literal "set_led") 1 200).take 15) = c_literal "SET_LED")
      ∧ (c_str ((sample_led_frame (c_literal "set_led") 1 200).take 15) = c_literal "SET_LED"
        ↔ (sample_led_frame (c_literal "set_led") 1 200).take 8
            = [83, 69, 84, 95, 76, 69, 68, 0])
      ∧ (c_str ((sample_led_frame (c_literal "set_led") 1 200).take 15)
            ≠ c_literal "SET_LED" →
          on_data_recv (some sample_info)
              (some (sample_led_frame (c_literal "set_led") 1 200))
              ((sample_led_frame (c_literal "set_led") 1 200).length : Int)
            = [Effect.esp_log log_level.I
                (log_line.pkt_from sample_info.src_addr 18
                  (match sample_info.rx_ctrl with
                   | some rx => rx.rssi
                   | none => 0)),
               Effect.esp_log log_level.W
                (log_line.unknown_led_command
                  (c_str ((sample_led_frame (c_literal "set_led") 1 200).take 15)))]
          ∧ warnings (on_data_recv (some sample_info)
                (some (sample_led_frame (c_literal "set_led") 1 200))
                ((sample_led_frame (c_literal "set_led") 1 200).length : Int))
            = [log_line.unknown_led_command
                (c_str ((sample_led_frame (c_literal "set_led") 1 200).take 15))]
          ∧ gpio_writes (on_data_recv (some sample_info)
                (some (sample_led_frame (c_literal "set_led") 1 200))
                ((sample_led_frame (c_literal "set_led") 1 200).length : Int)) = []) :=
  led_written_iff_set_led sample_info (sample_led_frame (c_literal "set_led") 1 200)
    (by decide)

/-- The three commands `set_led`, `SET_LEDX` and the empty text are answered by the warning
and leave the LED output alone, while `SET_LED` writes it. -/
theorem led_command_examples :
    gpio_writes (on_data_recv (some sample_info)
        (some (sample_led_frame (c_literal "set_led") 1 200)) 18) = []
      ∧ gpio_writes (on_data_recv (some sample_info)
        (some (sample_led_frame (c_literal "SET_LEDX") 1 200)) 18) = []
      ∧ gpio_writes (on_data_recv (some sample_info)
        (some (sample_led_frame [] 1 200)) 18) = []
      ∧ warnings (on_data_recv (some sample_info)
        (some (sample_led_frame (c_literal "SET_LEDX") 1 200)) 18)
          = [log_line.unknown_led_command (c_literal "SET_LEDX")]
      ∧ gpio_writes (on_data_recv (some sample_info)
        (some (sample_led_frame (c_literal "SET_LED") 1 200)) 18) = [(LED_PIN, 1)]
      ∧ gpio_writes (on_data_recv (some sample_info)
        (some (sample_led_frame (c_literal "SET_LED") 0 200)) 18) = [(LED_PIN, 0)] := by
  decide

/-- C10, as stated, fails: an empty frame has a length (0) that is none of 18, 28, 208 and
168, and the callback returns at its first guard without emitting any warning. -/
theorem led_empty_frame_no_warning :
    (([] : List Byte).length : Int) ≠ 18
      ∧ (([] : List Byte).length : Int) ≠ 28
      ∧ (([] : List Byte).length : Int) ≠ 208
      ∧ (([] : List Byte).length : Int) ≠ 168
      ∧ on_data_recv (some sample_info) (some []) (([] : List Byte).length : Int) = []
      ∧ warnings (on_data_recv (some sample_info) (some [])
          (([] : List Byte).length : Int)) = [] := by
  decide

/-- C10, amended: in the LED / telemetry receiver, for every frame length greater than 0 that
is none of the record sizes 18, 28, 208 and 168, the frame is treated as unknown: after the
source line the only thing done is the warning carrying the length; the LED output is not
written and no telemetry line is logged. -/
theorem led_unknown_length_warns (info : esp_now_recv_info_t) (data : List Byte) (len : Int)
    (hpos : 0 < len) (h18 : len ≠ 18) (h28 : len ≠ 28) (h208 : len ≠ 208)
    (h168 : len ≠ 168) :
    on_data_recv (some info) (some data) len
        = [Effect.esp_log log_level.I
            (log_line.pkt_from info.src_addr len
              (match info.rx_ctrl with
               | some rx => rx.rssi
               | none => 0)),
           Effect.esp_log log_level.W (log_line.unknown_payload_size len)]
      ∧ gpio_writes (on_data_recv (some info) (some data) len) = []
      ∧ telemetry (on_data_recv (some info) (some data) len) = []
      ∧ warnings (on_data_recv (some info) (some data) len)
          = [log_line.unknown_payload_size len] := by
  have hp : ¬ len ≤ 0 := by omega
  have key : on_data_recv (some info) (some data) len
      = [Effect.esp_log log_level.I
            (log_line.pkt_from info.src_addr len
              (match info.rx_ctrl with
               | some rx => rx.rssi
               | none => 0)),
           Effect.esp_log log_level.W (log_line.unknown_payload_size len)] := by
    simp [on_data_recv, sizeof_led_control_t, sizeof_sensor_data_t, sizeof_esp_now_data_t,
      sizeof_sensor_payload_160_t, hp, h18, h28, h208, h168]
  rw [key]
  exact ⟨rfl, rfl, rfl, rfl⟩

/-- Witness of the amended C10: a frame of 5 bytes. -/
theorem led_unknown_length_warns_witness :
    on_data_recv (some sample_info) (some (List.replicate 5 0)) 5
        = [Effect.esp_log log_level.I
            (log_line.pkt_from sample_info.src_addr 5
              (match sample_info.rx_ctrl with
               | some rx => rx.rssi
               | none => 0)),
           Effect.esp_log log_level.W (log_line.unknown_payload_size 5)]
      ∧ gpio_writes (on_data_recv (some sample_info) (some (List.replicate 5 0)) 5) = []
      ∧ telemetry (on_data_recv (some sample_info) (some (List.replicate 5 0)) 5) = []
      ∧ warnings (on_data_recv (some sample_info) (some (List.replicate 5 0)) 5)
          = [log_line.unknown_payload_size 5] :=
  led_unknown_length_warns sample_info (List.replicate 5 0) 5 (by decide) (by decide)
    (by decide) (by decide) (by decide)

end espnow_receiver

/-! ## The group receiver over successive frames -/

namespace espnow_receiver_g1

open espnow

/-- A byte load is below 256. -/
theorem rd_u8_lt (p : List Byte) (off : Nat) : rd_u8 p off < 256 :=
  (p.getD off 0).isLt

/-- A sequence number read from a frame is an unsigned 32-bit value. -/
theorem sequence_num_le (d : List Byte) : sequence_num d ≤ 4294967295 := by
  have h0 := rd_u8_lt d 204
  have h1 := rd_u8_lt d (204 + 1)
  have h2 := rd_u8_lt d (204 + 2)
  have h3 := rd_u8_lt d (204 + 3)
  simp only [sequence_num, offsetof_sequence_num, rd_u32]
  omega

/-- Reaching the dispatch, over a concatenation of traces. -/
theorem reached_dispatch_append (xs ys : List Effect) :
    reached_dispatch (xs ++ ys) = (reached_dispatch xs || reached_dispatch ys) := by
  simp [reached_dispatch, List.any_append]

/-- The admitted sequence numbers of a concatenation of traces. -/
theorem admitted_sequence_nums_append (xs ys : List Effect) :
    admitted_sequence_nums (xs ++ ys)
      = admitted_sequence_nums xs ++ admitted_sequence_nums ys := by
  induction xs with
  | nil => rfl
  | cons x xs ih =>
    cases x with
    | esp_now_send p d n => simpa [admitted_sequence_nums] using ih
    | esp_log l line =>
      cases line <;> simp [admitted_sequence_nums, ih]

/-- The dispatch logs no sequence line. -/
theorem admitted_sequence_nums_dispatch (env : env_t) (info : esp_now_recv_info_t)
    (frame : List Byte) : admitted_sequence_nums (dispatch env info frame) = [] := by
  simp only [dispatch, send_reply]
  split
  · split <;> rfl
  · split <;> rfl

/-- What one call can do, whatever its arguments: it is dropped at the length guard, dropped
as a duplicate, dropped by the group filter after its sequence number was recorded, or
admitted. -/
theorem on_data_recv_cases (env : env_t) (last_sequence : Nat)
    (recv_info : Option esp_now_recv_info_t) (data : Option (List Byte)) (len : Int) :
    on_data_recv env last_sequence recv_info data len
        = ⟨last_sequence, [Effect.esp_log log_level.W log_line.invalid_packet]⟩
      ∨ (∃ d, data = some d ∧ sequence_num d ≤ last_sequence
          ∧ on_data_recv env last_sequence recv_info data len
            = ⟨last_sequence,
                [Effect.esp_log log_level.W (log_line.duplicate_ignored (sequence_num d))]⟩)
      ∨ (∃ d, data = some d ∧ last_sequence < sequence_num d
          ∧ on_data_recv env last_sequence recv_info data len
            = ⟨sequence_num d,
                [Effect.esp_log log_level.I (log_line.not_for_me (group_id d))]⟩)
      ∨ (∃ info d, recv_info = some info ∧ data = some d ∧ last_sequence < sequence_num d
          ∧ on_data_recv env last_sequence recv_info data len
            = ⟨sequence_num d,
                display info d ++ dispatch env info d
                  ++ [Effect.esp_log log_level.I log_line.separator]⟩) := by
  cases recv_info with
  | none => exact Or.inl (by cases data <;> rfl)
  | some info =>
    cases data with
    | none => exact Or.inl rfl
    | some d =>
      by_cases hl : len < (sizeof_broadcast_data_t : Int)
      · exact Or.inl (by simp only [on_data_recv, if_pos hl])
      · by_cases hs : sequence_num d ≤ last_sequence
        · exact Or.inr (Or.inl ⟨d, rfl, hs, by simp only [on_data_recv, if_neg hl, if_pos hs]⟩)
        · by_cases hg : (!(group_id d == 0 || group_id d == MY_GROUP_ID)) = true
          · refine Or.inr (Or.inr (Or.inl ⟨d, rfl, Nat.not_le.mp hs, ?_⟩))
            simp only [on_data_recv, if_neg hl, if_neg hs, hg]
            rfl
          · refine Or.inr (Or.inr (Or.inr ⟨info, d, rfl, rfl, Nat.not_le.mp hs, ?_⟩))
            have hg2 : (!(group_id d == 0 || group_id d == MY_GROUP_ID)) = false := by
              simpa using hg
            simp only [on_data_recv, if_neg hl, if_neg hs, hg2]
            rfl

/-- After a frame of at least 212 bytes was processed, `last_sequence` is at least its
sequence number. -/
theorem sequence_num_le_after (env : env_t) (last_sequence : Nat)
    (info : esp_now_recv_info_t) (frame : List Byte) (hlen : 212 ≤ frame.length) :
    sequence_num frame
      ≤ (on_data_recv env last_sequence (some info) (some frame)
          (frame.length : Int)).last_sequence := by
  by_cases hs : sequence_num frame ≤ last_sequence
  · rw [on_data_recv_duplicate env last_sequence info frame hlen hs]
    exact hs
  · have h := length_test_passes frame hlen
    simp only [on_data_recv, if_neg h, if_neg hs]
    split <;> exact Nat.le_refl _

/-- C11: replay rejection in the group receiver. After a frame of at least 212 bytes was
processed once, from any `last_sequence`, processing the same frame again is rejected as a
duplicate: only the duplicate warning is logged, the dispatch is not reached, no reply is
sent and `last_sequence` keeps the value the first processing left. -/
theorem g1_replay_rejected (env1 env2 : env_t) (last_sequence : Nat)
    (info1 info2 : esp_now_recv_info_t) (frame : List Byte) (hlen : 212 ≤ frame.length) :
    on_data_recv env2
        (on_data_recv env1 last_sequence (some info1) (some frame)
          (frame.length : Int)).last_sequence
        (some info2) (some frame) (frame.length : Int)
      = ⟨(on_data_recv env1 last_sequence (some info1) (some frame)
            (frame.length : Int)).last_sequence,
          [Effect.esp_log log_level.W (log_line.duplicate_ignored (sequence_num frame))]⟩
      ∧ reached_dispatch
          (on_data_recv env2
            (on_data_recv env1 last_sequence (some info1) (some frame)
              (frame.length : Int)).last_sequence
            (some info2) (some frame) (frame.length : Int)).effects = false
      ∧ replies
          (on_data_recv env2
            (on_data_recv env1 last_sequence (some info1) (some frame)
              (frame.length : Int)).last_sequence
            (some info2) (some frame) (frame.length : Int)).effects = [] := by
  rw [on_data_recv_duplicate env2 _ info2 frame hlen
    (sequence_num_le_after env1 last_sequence info1 frame hlen)]
  exact ⟨rfl, rfl, rfl⟩

/-- Witness of C11: from `last_sequence` 0, a frame with sequence number 5 for group 0 is
admitted the first time and rejected the second time. -/
theorem g1_replay_rejected_witness :
    reached_dispatch
        (on_data_recv sample_env 0 (some sample_info) (some (sample_frame 1 0 5))
          ((sample_frame 1 0 5).length : Int)).effects = true
      ∧ (on_data_recv sample_env
          (on_data_recv sample_env 0 (some sample_info) (some (sample_frame 1 0 5))
            ((sample_frame 1 0 5).length : Int)).last_sequence
          (some sample_info) (some (sample_frame 1 0 5)) ((sample_frame 1 0 5).length : Int)
        = ⟨(on_data_recv sample_env 0 (some sample_info) (some (sample_frame 1 0 5))
              ((sample_frame 1 0 5).length : Int)).last_sequence,
            [Effect.esp_log log_level.W
              (log_line.duplicate_ignored (sequence_num (sample_frame 1 0 5)))]⟩
        ∧ reached_dispatch
            (on_data_recv sample_env
              (on_data_recv sample_env 0 (some sample_info) (some (sample_frame 1 0 5))
                ((sample_frame 1 0 5).length : Int)).last_sequence
              (some sample_info) (some (sample_frame 1 0 5))
              ((sample_frame 1 0 5).length : Int)).effects = false
        ∧ replies
            (on_data_recv sample_env
              (on_data_recv sample_env 0 (some sample_info) (some (sample_frame 1 0 5))
                ((sample_frame 1 0 5).length : Int)).last_sequence
              (some sample_info) (some (sample_frame 1 0 5))
              ((sample_frame 1 0 5).length : Int)).effects = []) :=
  ⟨by decide,
    g1_replay_rejected sample_env sample_env 0 sample_info sample_info (sample_frame 1 0 5)
      (by decide)⟩

/-- With `last_sequence` at the largest 32-bit value, a call, whatever its arguments, leaves
it there, reaches no dispatch and sends nothing. -/
theorem on_data_recv_saturated (env : env_t) (recv_info : Option esp_now_recv_info_t)
    (data : Option (List Byte)) (len : Int) :
    (on_data_recv env 4294967295 recv_info data len).last_sequence = 4294967295
      ∧ replies (on_data_recv env 4294967295 recv_info data len).effects = []
      ∧ reached_dispatch (on_data_recv env 4294967295 recv_info data len).effects = false := by
  rcases on_data_recv_cases env 4294967295 recv_info data len with
    h | ⟨d, _, _, h⟩ | ⟨d, _, hlt, _⟩ | ⟨info, d, _, _, hlt, _⟩
  · rw [h]
    exact ⟨rfl, rfl, rfl⟩
  · rw [h]
    exact ⟨rfl, rfl, rfl⟩
  · exact absurd (sequence_num_le d) (Nat.not_le.mpr hlt)
  · exact absurd (sequence_num_le d) (Nat.not_le.mpr hlt)

/-- With `last_sequence` at the largest 32-bit value, any succession of calls leaves it there,
reaches no dispatch and sends nothing. -/
theorem run_saturated (calls : List call_t) :
    (run 4294967295 calls).last_sequence = 4294967295
      ∧ replies (run 4294967295 calls).effects = []
      ∧ reached_dispatch (run 4294967295 calls).effects = false := by
  induction calls with
  | nil => exact ⟨rfl, rfl, rfl⟩
  | cons c rest ih =>
    obtain ⟨h1, h2, h3⟩ := on_data_recv_saturated c.env c.recv_info c.data c.len
    obtain ⟨i1, i2, i3⟩ := ih
    simp only [run, h1, replies_append, reached_dispatch_append, h2, h3, i1, i2, i3]
    exact ⟨trivial, rfl, rfl⟩

/-- C12: sequence wraparound is not handled in the group receiver. Once a frame with
`sequence_num` = 2^32 - 1 has passed the duplicate check, `last_sequence` is 2^32 - 1, and
from then on every frame of at least 212 bytes, whatever its sequence number, is dropped as
a duplicate; over any succession of later calls `last_sequence` stays 2^32 - 1, no frame
reaches the dispatch and no reply is sent. -/
theorem g1_wraparound_blocks (env : env_t) (last_sequence : Nat)
    (info : esp_now_recv_info_t) (frame : List Byte) (later : List call_t)
    (hlen : 212 ≤ frame.length) (hseq : sequence_num frame = 4294967295)
    (hfresh : last_sequence < 4294967295) :
    (on_data_recv env last_sequence (some info) (some frame)
        (frame.length : Int)).last_sequence = 4294967295
      ∧ (∀ (env2 : env_t) (info2 : esp_now_recv_info_t) (f2 : List Byte),
          212 ≤ f2.length →
          on_data_recv env2
              (on_data_recv env last_sequence (some info) (some frame)
                (frame.length : Int)).last_sequence
              (some info2) (some f2) (f2.length : Int)
            = ⟨4294967295,
                [Effect.esp_log log_level.W
                  (log_line.duplicate_ignored (sequence_num f2))]⟩)
      ∧ (run (on_data_recv env last_sequence (some info) (some frame)
            (frame.length : Int)).last_sequence later).last_sequence = 4294967295
      ∧ reached_dispatch
          (run (on_data_recv env last_sequence (some info) (some frame)
            (frame.length : Int)).last_sequence later).effects = false
      ∧ replies
          (run (on_data_recv env last_sequence (some info) (some frame)
            (frame.length : Int)).last_sequence later).effects = [] := by
  have hs : (on_data_recv env last_sequence (some info) (some frame)
      (frame.length : Int)).last_sequence = 4294967295 := by
    have h := length_test_passes frame hlen
    have hn : ¬ (sequence_num frame ≤ last_sequence) := by omega
    simp only [on_data_recv, if_neg h, if_neg hn]
    split <;> exact hseq
  rw [hs]
  obtain ⟨r1, r2, r3⟩ := run_saturated later
  refine ⟨rfl, ?_, r1, r3, r2⟩
  intro env2 info2 f2 hl2
  exact on_data_recv_duplicate env2 4294967295 info2 f2 hl2 (sequence_num_le f2)

/-- Witness of C12: after the frame with sequence number 2^32 - 1, the frames numbered 0 and
1 are dropped. -/
theorem g1_wraparound_blocks_witness :
    (on_data_recv sample_env 7 (some sample_info) (some (sample_frame 1 1 4294967295))
        ((sample_frame 1 1 4294967295).length : Int)).last_sequence = 4294967295
      ∧ (∀ (env2 : env_t) (info2 : esp_now_recv_info_t) (f2 : List Byte),
          212 ≤ f2.length →
          on_data_recv env2
              (on_data_recv sample_env 7 (some sample_info)
                (some (sample_frame 1 1 4294967295))
                ((sample_frame 1 1 4294967295).length : Int)).last_sequence
              (some info2) (some f2) (f2.length : Int)
            = ⟨4294967295,
                [Effect.esp_log log_level.W
                  (log_line.duplicate_ignored (sequence_num f2))]⟩)
      ∧ (run (on_data_recv sample_env 7 (some sample_info)
            (some (sample_frame 1 1 4294967295))
            ((sample_frame 1 1 4294967295).length : Int)).last_sequence
          [⟨sample_env, some sample_info, some (sample_frame 2 0 0), 212⟩,
           ⟨sample_env, some sample_info, some (sample_frame 2 0 1), 212⟩]).last_sequence
          = 4294967295
      ∧ reached_dispatch
          (run (on_data_recv sample_env 7 (some sample_info)
            (some (sample_frame 1 1 4294967295))
            ((sample_frame 1 1 4294967295).length : Int)).last_sequence
          [⟨sample_env, some sample_info, some (sample_frame 2 0 0), 212⟩,
           ⟨sample_env, some sample_info, some (sample_frame 2 0 1), 212⟩]).effects = false
      ∧ replies
          (run (on_data_recv sample_env 7 (some sample_info)
            (some (sample_frame 1 1 4294967295))
            ((sample_frame 1 1 4294967295).length : Int)).last_sequence
          [⟨sample_env, some sample_info, some (sample_frame 2 0 0), 212⟩,
           ⟨sample_env, some sample_info, some (sample_frame 2 0 1), 212⟩]).effects = [] :=
  g1_wraparound_blocks sample_env 7 sample_info (sample_frame 1 1 4294967295)
    [⟨sample_env, some sample_info, some (sample_frame 2 0 0), 212⟩,
     ⟨sample_env, some sample_info, some (sample_frame 2 0 1), 212⟩]
    (by decide) (by decide) (by decide)

/-- C13: in the group receiver a call whose length argument is below 212, zero and negative
values included, is dropped as an invalid packet whatever the buffer holds: the outcome is
the invalid-packet warning alone, with `last_sequence` unchanged and no reply; a frame of
any length from 212 upwards is not dropped by the length test. -/
theorem g1_short_frame_dropped (env : env_t) (last_sequence : Nat)
    (recv_info : Option esp_now_recv_info_t) (data : Option (List Byte)) (len : Int)
    (hshort : len < 212) :
    on_data_recv env last_sequence recv_info data len
        = ⟨last_sequence, [Effect.esp_log log_level.W log_line.invalid_packet]⟩
      ∧ (on_data_recv env last_sequence recv_info data len).last_sequence = last_sequence
      ∧ replies (on_data_recv env last_sequence recv_info data len).effects = []
      ∧ reached_dispatch (on_data_recv env last_sequence recv_info data len).effects = false
      ∧ (∀ (env2 : env_t) (ls2 : Nat) (info : esp_now_recv_info_t) (frame : List Byte),
          212 ≤ frame.length →
          (on_data_recv env2 ls2 (some info) (some frame) (frame.length : Int)).effects
            ≠ [Effect.esp_log log_level.W log_line.invalid_packet]) := by
  have key : on_data_recv env last_sequence recv_info data len
      = ⟨last_sequence, [Effect.esp_log log_level.W log_line.invalid_packet]⟩ := by
    cases recv_info with
    | none => cases data <;> rfl
    | some info =>
      cases data with
      | none => rfl
      | some d =>
        have hl : len < (sizeof_broadcast_data_t : Int) := hshort
        simp only [on_data_recv, if_pos hl]
  rw [key]
  refine ⟨rfl, rfl, rfl, rfl, ?_⟩
  intro env2 ls2 info frame hlen
  rcases on_data_recv_cases env2 ls2 (some info) (some frame) (frame.length : Int) with
    h | ⟨d, _, _, h⟩ | ⟨d, _, _, h⟩ | ⟨i, d, _, _, _, h⟩
  · exfalso
    have hp := length_test_passes frame hlen
    by_cases hs : sequence_num frame ≤ ls2
    · rw [on_data_recv_duplicate env2 ls2 info frame hlen hs] at h
      simp at h
    · simp only [on_data_recv, if_neg hp, if_neg hs] at h
      split at h
      · simp at h
      · simp [display] at h
  · rw [h]
    simp
  · rw [h]
    simp
  · rw [h]
    simp [display]

/-- Witness of C13: a call with length 211 and a call with length -1 are dropped as
invalid. -/
theorem g1_short_frame_dropped_witness :
    (on_data_recv sample_env 3 (some sample_info) (some (List.replicate 211 0)) 211
        = ⟨3, [Effect.esp_log log_level.W log_line.invalid_packet]⟩
      ∧ (on_data_recv sample_env 3 (some sample_info) (some (List.replicate 211 0))
          211).last_sequence = 3
      ∧ replies (on_data_recv sample_env 3 (some sample_info) (some (List.replicate 211 0))
          211).effects = []
      ∧ reached_dispatch (on_data_recv sample_env 3 (some sample_info)
          (some (List.replicate 211 0)) 211).effects = false
      ∧ (∀ (env2 : env_t) (ls2 : Nat) (info : esp_now_recv_info_t) (frame : List Byte),
          212 ≤ frame.length →
          (on_data_recv env2 ls2 (some info) (some frame) (frame.length : Int)).effects
            ≠ [Effect.esp_log log_level.W log_line.invalid_packet]))
      ∧ on_data_recv sample_env 3 (some sample_info) (some []) (-1)
        = ⟨3, [Effect.esp_log log_level.W log_line.invalid_packet]⟩ :=
  ⟨g1_short_frame_dropped sample_env 3 (some sample_info) (some (List.replicate 211 0)) 211
      (by decide),
    (g1_short_frame_dropped sample_env 3 (some sample_info) (some []) (-1) (by decide)).1⟩

end espnow_receiver_g1

/-! ## Invariants of the group receiver -/

namespace espnow_receiver_g1

open espnow

/-- The lines logged for an accepted frame print its sequence number once. -/
theorem admitted_sequence_nums_display (info : esp_now_recv_info_t) (frame : List Byte) :
    admitted_sequence_nums (display info frame) = [sequence_num frame] := by
  simp [display, admitted_sequence_nums]

/-- What one call does to `last_sequence` and to the list of admitted sequence numbers. -/
theorem on_data_recv_step (env : env_t) (last_sequence : Nat)
    (recv_info : Option esp_now_recv_info_t) (data : Option (List Byte)) (len : Int) :
    last_sequence ≤ (on_data_recv env last_sequence recv_info data len).last_sequence
      ∧ ((on_data_recv env last_sequence recv_info data len).last_sequence = last_sequence
        ∨ ∃ d, data = some d
            ∧ (on_data_recv env last_sequence recv_info data len).last_sequence
              = sequence_num d)
      ∧ (admitted_sequence_nums (on_data_recv env last_sequence recv_info data len).effects
            = []
        ∨ (last_sequence < (on_data_recv env last_sequence recv_info data len).last_sequence
          ∧ admitted_sequence_nums
              (on_data_recv env last_sequence recv_info data len).effects
            = [(on_data_recv env last_sequence recv_info data len).last_sequence])) := by
  rcases on_data_recv_cases env last_sequence recv_info data len with
    h | ⟨d, _, _, h⟩ | ⟨d, hd, hlt, h⟩ | ⟨info, d, _, hd, hlt, h⟩
  · rw [h]
    exact ⟨Nat.le_refl _, Or.inl rfl, Or.inl rfl⟩
  · rw [h]
    exact ⟨Nat.le_refl _, Or.inl rfl, Or.inl rfl⟩
  · rw [h]
    exact ⟨Nat.le_of_lt hlt, Or.inr ⟨d, hd, rfl⟩, Or.inl rfl⟩
  · rw [h]
    refine ⟨Nat.le_of_lt hlt, Or.inr ⟨d, hd, rfl⟩, Or.inr ⟨hlt, ?_⟩⟩
    simp only [admitted_sequence_nums_append, admitted_sequence_nums_display,
      admitted_sequence_nums_dispatch]
    rfl

/-- A succession of calls split in two: the second part starts from the value the first
part left. -/
theorem run_append (last_sequence : Nat) (xs ys : List call_t) :
    run last_sequence (xs ++ ys)
      = ⟨(run (run last_sequence xs).last_sequence ys).last_sequence,
          (run last_sequence xs).effects
            ++ (run (run last_sequence xs).last_sequence ys).effects⟩ := by
  induction xs generalizing last_sequence with
  | nil => rfl
  | cons c rest ih =>
    show run last_sequence (c :: (rest ++ ys)) = _
    rw [run, ih]
    simp only [run, List.append_assoc]

/-- Over any succession of calls from any starting value: `last_sequence` does not decrease,
it ends at the starting value or at the sequence number of one of the frames, the admitted
sequence numbers increase strictly, and each lies above the starting value and at most at
the final one. -/
theorem run_invariant (last_sequence : Nat) (calls : List call_t) :
    last_sequence ≤ (run last_sequence calls).last_sequence
      ∧ ((run last_sequence calls).last_sequence = last_sequence
        ∨ ∃ c ∈ calls, ∃ d, c.data = some d
            ∧ (run last_sequence calls).last_sequence = sequence_num d)
      ∧ List.Pairwise (fun a b => a < b)
          (admitted_sequence_nums (run last_sequence calls).effects)
      ∧ ∀ s ∈ admitted_sequence_nums (run last_sequence calls).effects,
          last_sequence < s ∧ s ≤ (run last_sequence calls).last_sequence := by
  induction calls generalizing last_sequence with
  | nil =>
    refine ⟨Nat.le_refl _, Or.inl rfl, List.Pairwise.nil, ?_⟩
    intro s hs
    simp [run, admitted_sequence_nums] at hs
  | cons c rest ih =>
    obtain ⟨s1, s2, s3⟩ := on_data_recv_step c.env last_sequence c.recv_info c.data c.len
    obtain ⟨i1, i2, i3, i4⟩ :=
      ih (on_data_recv c.env last_sequence c.recv_info c.data c.len).last_sequence
    simp only [run, admitted_sequence_nums_append]
    refine ⟨Nat.le_trans s1 i1, ?_, ?_, ?_⟩
    · rcases i2 with e | ⟨c2, hc2, d, hd, e⟩
      · rcases s2 with e2 | ⟨d, hd, e2⟩
        · exact Or.inl (e.trans e2)
        · exact Or.inr ⟨c, List.mem_cons_self _ _, d, hd, e.trans e2⟩
      · exact Or.inr ⟨c2, List.mem_cons_of_mem _ hc2, d, hd, e⟩
    · rw [List.pairwise_append]
      refine ⟨?_, i3, ?_⟩
      · rcases s3 with e | ⟨_, e⟩
        · rw [e]
          exact List.Pairwise.nil
        · rw [e]
          exact List.pairwise_singleton _ _
      · intro a ha b hb
        rcases s3 with e | ⟨_, e⟩
        · rw [e] at ha
          simp at ha
        · rw [e] at ha
          have ha2 :
              a = (on_data_recv c.env last_sequence c.recv_info c.data c.len).last_sequence := by
            simpa using ha
          rw [ha2]
          exact (i4 b hb).1
    · intro s hs
      rcases List.mem_append.mp hs with h | h
      · rcases s3 with e | ⟨hlt, e⟩
        · rw [e] at h
          simp at h
        · rw [e] at h
          have hs2 :
              s = (on_data_recv c.env last_sequence c.recv_info c.data c.len).last_sequence := by
            simpa using h
          rw [hs2]
          exact ⟨hlt, i1⟩
      · exact ⟨Nat.lt_of_le_of_lt s1 (i4 s h).1, (i4 s h).2⟩

/-- A trace reached the dispatch exactly when it admitted a sequence number. -/
theorem reached_dispatch_iff_admitted (effects : List Effect) :
    reached_dispatch effects = true ↔ admitted_sequence_nums effects ≠ [] := by
  induction effects with
  | nil => simp [reached_dispatch, admitted_sequence_nums]
  | cons e rest ih =>
    have hc : reached_dispatch (e :: rest)
        = (reached_dispatch [e] || reached_dispatch rest) :=
      reached_dispatch_append [e] rest
    have ha : admitted_sequence_nums (e :: rest)
        = admitted_sequence_nums [e] ++ admitted_sequence_nums rest :=
      admitted_sequence_nums_append [e] rest
    rw [hc, ha]
    cases e with
    | esp_now_send p d n => simpa [reached_dispatch, admitted_sequence_nums] using ih
    | esp_log l line =>
      cases line <;> simp [reached_dispatch, admitted_sequence_nums] <;>
        simpa [reached_dispatch] using ih

/-- C17: invariant of the group receiver over every finite succession of calls (frames of any
length and content), starting from `last_sequence` = 0: `last_sequence` never decreases as
more frames arrive, it is always 0 or the sequence number of one of the frames received so
far, and the sequence numbers of the frames that reached the dispatch increase strictly, so
none is admitted twice. -/
theorem g1_sequence_invariant (calls later : List call_t) :
    (run 0 calls).last_sequence ≤ (run 0 (calls ++ later)).last_sequence
      ∧ ((run 0 calls).last_sequence = 0
        ∨ ∃ c ∈ calls, ∃ d, c.data = some d ∧ (run 0 calls).last_sequence = sequence_num d)
      ∧ List.Pairwise (fun a b => a < b) (admitted_sequence_nums (run 0 calls).effects)
      ∧ (admitted_sequence_nums (run 0 calls).effects).Nodup := by
  obtain ⟨_, h2, h3, _⟩ := run_invariant 0 calls
  refine ⟨?_, h2, h3, ?_⟩
  · rw [run_append]
    exact (run_invariant (run 0 calls).last_sequence later).1
  · exact List.Pairwise.imp (fun h => Nat.ne_of_lt h) h3

end espnow_receiver_g1

/-! ## Replies fed back, and what a decision depends on -/

namespace espnow_receiver_g1

open espnow

/-- C18: a frame produced by `send_reply` is rejected by `on_data_recv` in every state: it
carries sequence number 0, so it is dropped as a duplicate, `last_sequence` is unchanged and
no further reply is sent; more generally a call whose buffer holds sequence number 0 never
reaches the dispatch, whatever the state, the length and the other arguments, and 0 is never
among the admitted sequence numbers of a succession of calls. -/
theorem g1_reply_frame_rejected (env env2 : env_t) (text : List Byte) (last_sequence : Nat)
    (info : esp_now_recv_info_t) (recv_info : Option esp_now_recv_info_t)
    (frame : List Byte) (len : Int) (hzero : sequence_num frame = 0) :
    on_data_recv env2 last_sequence (some info) (some (to_bytes (build_reply env text)))
        ((to_bytes (build_reply env text)).length : Int)
        = ⟨last_sequence, [Effect.esp_log log_level.W (log_line.duplicate_ignored 0)]⟩
      ∧ replies
          (on_data_recv env2 last_sequence (some info)
            (some (to_bytes (build_reply env text)))
            ((to_bytes (build_reply env text)).length : Int)).effects = []
      ∧ reached_dispatch (on_data_recv env2 last_sequence recv_info (some frame) len).effects
          = false
      ∧ replies (on_data_recv env2 last_sequence recv_info (some frame) len).effects = []
      ∧ (on_data_recv env2 last_sequence recv_info (some frame) len).last_sequence
          = last_sequence
      ∧ ∀ (start : Nat) (calls : List call_t),
          0 ∉ admitted_sequence_nums (run start calls).effects := by
  have hl := to_bytes_build_reply_length env text
  have hs : sequence_num (to_bytes (build_reply env text)) ≤ last_sequence := by
    rw [sequence_num_reply]
    exact Nat.zero_le _
  have h1 := on_data_recv_duplicate env2 last_sequence info _ (Nat.le_of_eq hl.symm) hs
  rw [sequence_num_reply] at h1
  rw [h1]
  refine ⟨rfl, rfl, ?_⟩
  have key : (on_data_recv env2 last_sequence recv_info (some frame) len).last_sequence
        = last_sequence
      ∧ reached_dispatch (on_data_recv env2 last_sequence recv_info (some frame) len).effects
        = false
      ∧ replies (on_data_recv env2 last_sequence recv_info (some frame) len).effects
        = [] := by
    rcases on_data_recv_cases env2 last_sequence recv_info (some frame) len with
      h | ⟨d, _, _, h⟩ | ⟨d, hd, hlt, _⟩ | ⟨i, d, _, hd, hlt, _⟩
    · rw [h]
      exact ⟨rfl, rfl, rfl⟩
    · rw [h]
      exact ⟨rfl, rfl, rfl⟩
    · cases hd
      rw [hzero] at hlt
      exact absurd hlt (Nat.not_lt_zero _)
    · cases hd
      rw [hzero] at hlt
      exact absurd hlt (Nat.not_lt_zero _)
  refine ⟨key.2.1, key.2.2, key.1, ?_⟩
  intro start calls hmem
  exact Nat.not_lt_zero _ ((run_invariant start calls).2.2.2 0 hmem).1

/-- Witness of C18: a Command for group 0 carrying sequence number 0 on a fresh node. -/
theorem g1_reply_frame_rejected_witness :
    on_data_recv sample_env 0 (some sample_info)
        (some (to_bytes (build_reply sample_env ACK_TEXT)))
        ((to_bytes (build_reply sample_env ACK_TEXT)).length : Int)
        = ⟨0, [Effect.esp_log log_level.W (log_line.duplicate_ignored 0)]⟩
      ∧ replies
          (on_data_recv sample_env 0 (some sample_info)
            (some (to_bytes (build_reply sample_env ACK_TEXT)))
            ((to_bytes (build_reply sample_env ACK_TEXT)).length : Int)).effects = []
      ∧ reached_dispatch
          (on_data_recv sample_env 0 (some sample_info) (some (sample_frame 2 0 0))
            212).effects = false
      ∧ replies
          (on_data_recv sample_env 0 (some sample_info) (some (sample_frame 2 0 0))
            212).effects = []
      ∧ (on_data_recv sample_env 0 (some sample_info) (some (sample_frame 2 0 0))
            212).last_sequence = 0
      ∧ ∀ (start : Nat) (calls : List call_t),
          0 ∉ admitted_sequence_nums (run start calls).effects :=
  g1_reply_frame_rejected sample_env sample_env ACK_TEXT 0 sample_info (some sample_info)
    (sample_frame 2 0 0) 212 (by decide)

/-- For a frame of at least 212 bytes, the new `last_sequence`, whether the dispatch is
reached and the replies, written in terms of `last_sequence`, the three fields
`sequence_num`, `group_id`, `message_type`, the source address and the clock alone. -/
theorem on_data_recv_observables (env : env_t) (last_sequence : Nat)
    (info : esp_now_recv_info_t) (frame : List Byte) (hlen : 212 ≤ frame.length) :
    (on_data_recv env last_sequence (some info) (some frame)
        (frame.length : Int)).last_sequence
        = (if sequence_num frame ≤ last_sequence then last_sequence else sequence_num frame)
      ∧ reached_dispatch
          (on_data_recv env last_sequence (some info) (some frame)
            (frame.length : Int)).effects
        = decide (last_sequence < sequence_num frame
            ∧ (group_id frame = 0 ∨ group_id frame = MY_GROUP_ID))
      ∧ replies
          (on_data_recv env last_sequence (some info) (some frame)
            (frame.length : Int)).effects
        = (if last_sequence < sequence_num frame
              ∧ (group_id frame = 0 ∨ group_id frame = MY_GROUP_ID)
              ∧ message_type frame = 2 then
            [(info.src_addr, to_bytes (build_reply env ACK_TEXT))]
          else []) := by
  by_cases hs : sequence_num frame ≤ last_sequence
  · have hn : ¬ (last_sequence < sequence_num frame) := Nat.not_lt.mpr hs
    rw [on_data_recv_duplicate env last_sequence info frame hlen hs]
    simp [hs, hn, reached_dispatch, replies]
  · have hlt : last_sequence < sequence_num frame := Nat.not_le.mp hs
    by_cases hg : group_id frame = 0 ∨ group_id frame = MY_GROUP_ID
    · rw [on_data_recv_accepted env last_sequence info frame hlen hlt hg]
      have hr : reached_dispatch
          (display info frame ++ dispatch env info frame
            ++ [Effect.esp_log log_level.I log_line.separator]) = true := by
        rw [List.append_assoc]
        exact reached_dispatch_display info frame _
      have hsep : replies [Effect.esp_log log_level.I log_line.separator] = [] := rfl
      simp only [hr, replies_append, replies_display, hsep, List.nil_append,
        List.append_nil, if_neg hs]
      by_cases hmt : message_type frame = 2
      · rw [replies_dispatch_command env info frame hmt]
        simp [hlt, hg, hmt]
      · rw [replies_dispatch_other env info frame hmt]
        simp [hlt, hg, hmt]
    · have hg0 : group_id frame ≠ 0 := fun h => hg (Or.inl h)
      have hg1 : group_id frame ≠ MY_GROUP_ID := fun h => hg (Or.inr h)
      rw [on_data_recv_other_group env last_sequence info frame hlen hlt hg0 hg1]
      simp [hs, hg, reached_dispatch, replies]

/-- C19: noninterference in the group receiver. Two frames of at least 212 bytes whose bytes
200 (`message_type`), 201 (`group_id`) and 204..207 (`sequence_num`) agree, processed from
the same `last_sequence`, give the same new `last_sequence`, the same decision to reach the
dispatch and the same number of replies, whatever their lengths, their other bytes, their
source descriptions and the environment; the source address only sets the destination of
the reply, whose payload does not depend on the frame. -/
theorem g1_noninterference (env1 env2 : env_t) (last_sequence : Nat)
    (info1 info2 : esp_now_recv_info_t) (f1 f2 : List Byte)
    (hlen1 : 212 ≤ f1.length) (hlen2 : 212 ≤ f2.length)
    (hbytes : ∀ i ∈ [200, 201, 204, 205, 206, 207], f1.getD i 0 = f2.getD i 0) :
    (on_data_recv env1 last_sequence (some info1) (some f1) (f1.length : Int)).last_sequence
        = (on_data_recv env2 last_sequence (some info2) (some f2)
            (f2.length : Int)).last_sequence
      ∧ reached_dispatch
          (on_data_recv env1 last_sequence (some info1) (some f1) (f1.length : Int)).effects
        = reached_dispatch
          (on_data_recv env2 last_sequence (some info2) (some f2) (f2.length : Int)).effects
      ∧ (replies
          (on_data_recv env1 last_sequence (some info1) (some f1)
            (f1.length : Int)).effects).length
        = (replies
          (on_data_recv env2 last_sequence (some info2) (some f2)
            (f2.length : Int)).effects).length
      ∧ replies
          (on_data_recv env1 last_sequence (some info1) (some f1) (f1.length : Int)).effects
        = (replies
            (on_data_recv env1 last_sequence (some info2) (some f2)
              (f2.length : Int)).effects).map (fun p => (info1.src_addr, p.2))
      ∧ ∀ p ∈ replies
            (on_data_recv env1 last_sequence (some info1) (some f1)
              (f1.length : Int)).effects,
          p = (info1.src_addr, to_bytes (build_reply env1 ACK_TEXT)) := by
  have hmt : message_type f1 = message_type f2 := by
    simp only [message_type, offsetof_message_type, rd_u8, hbytes 200 (by decide)]
  have hgid : group_id f1 = group_id f2 := by
    simp only [group_id, offsetof_group_id, rd_u8, hbytes 201 (by decide)]
  have hseq : sequence_num f1 = sequence_num f2 := by
    simp only [sequence_num, offsetof_sequence_num, rd_u32, rd_u8, hbytes 204 (by decide),
      hbytes 205 (by decide), hbytes 206 (by decide), hbytes 207 (by decide)]
  obtain ⟨a1, a2, a3⟩ := on_data_recv_observables env1 last_sequence info1 f1 hlen1
  obtain ⟨b1, b2, b3⟩ := on_data_recv_observables env2 last_sequence info2 f2 hlen2
  obtain ⟨_, _, c3⟩ := on_data_recv_observables env1 last_sequence info2 f2 hlen2
  rw [a1, a2, a3, b1, b2, b3, c3, hmt, hgid, hseq]
  refine ⟨rfl, rfl, ?_, ?_, ?_⟩
  · split <;> rfl
  · split <;> rfl
  · intro p hp
    split at hp
    · simpa using hp
    · simp at hp

/-- Witness of C19: a bare 212-byte Command and a longer frame with other texts, padding,
timestamp and trailing bytes, from another source, that agree on the three fields. -/
theorem g1_noninterference_witness :
    (on_data_recv sample_env 3 (some sample_info) (some (sample_frame 2 0 10))
        ((sample_frame 2 0 10).length : Int)).last_sequence
        = (on_data_recv ⟨5000, 1⟩ 3 (some ⟨⟨1, 2, 3, 4, 5, 6⟩, some ⟨-40⟩⟩)
            (some (List.replicate 20 65 ++ List.replicate 180 66 ++ [2, 0, 9, 9]
              ++ wr_u32 10 ++ wr_u32 777 ++ [1, 2, 3]))
            ((List.replicate 20 65 ++ List.replicate 180 66 ++ [2, 0, 9, 9]
              ++ wr_u32 10 ++ wr_u32 777 ++ [1, 2, 3]).length : Int)).last_sequence
      ∧ reached_dispatch
          (on_data_recv sample_env 3 (some sample_info) (some (sample_frame 2 0 10))
            ((sample_frame 2 0 10).length : Int)).effects
        = reached_dispatch
          (on_data_recv ⟨5000, 1⟩ 3 (some ⟨⟨1, 2, 3, 4, 5, 6⟩, some ⟨-40⟩⟩)
            (some (List.replicate 20 65 ++ List.replicate 180 66 ++ [2, 0, 9, 9]
              ++ wr_u32 10 ++ wr_u32 777 ++ [1, 2, 3]))
            ((List.replicate 20 65 ++ List.replicate 180 66 ++ [2, 0, 9, 9]
              ++ wr_u32 10 ++ wr_u32 777 ++ [1, 2, 3]).length : Int)).effects
      ∧ (replies
          (on_data_recv sample_env 3 (some sample_info) (some (sample_frame 2 0 10))
            ((sample_frame 2 0 10).length : Int)).effects).length
        = (replies
          (on_data_recv ⟨5000, 1⟩ 3 (some ⟨⟨1, 2, 3, 4, 5, 6⟩, some ⟨-40⟩⟩)
            (some (List.replicate 20 65 ++ List.replicate 180 66 ++ [2, 0, 9, 9]
              ++ wr_u32 10 ++ wr_u32 777 ++ [1, 2, 3]))
            ((List.replicate 20 65 ++ List.replicate 180 66 ++ [2, 0, 9, 9]
              ++ wr_u32 10 ++ wr_u32 777 ++ [1, 2, 3]).length : Int)).effects).length
      ∧ replies
          (on_data_recv sample_env 3 (some sample_info) (some (sample_frame 2 0 10))
            ((sample_frame 2 0 10).length : Int)).effects
        = (replies
            (on_data_recv sample_env 3 (some ⟨⟨1, 2, 3, 4, 5, 6⟩, some ⟨-40⟩⟩)
              (some (List.replicate 20 65 ++ List.replicate 180 66 ++ [2, 0, 9, 9]
                ++ wr_u32 10 ++ wr_u32 777 ++ [1, 2, 3]))
              ((List.replicate 20 65 ++ List.replicate 180 66 ++ [2, 0, 9, 9]
                ++ wr_u32 10 ++ wr_u32 777 ++ [1, 2, 3]).length : Int)).effects).map
            (fun p => (sample_info.src_addr, p.2))
      ∧ ∀ p ∈ replies
            (on_data_recv sample_env 3 (some sample_info) (some (sample_frame 2 0 10))
              ((sample_frame 2 0 10).length : Int)).effects,
          p = (sample_info.src_addr, to_bytes (build_reply sample_env ACK_TEXT)) :=
  g1_noninterference sample_env ⟨5000, 1⟩ 3 sample_info ⟨⟨1, 2, 3, 4, 5, 6⟩, some ⟨-40⟩⟩
    (sample_frame 2 0 10)
    (List.replicate 20 65 ++ List.replicate 180 66 ++ [2, 0, 9, 9]
      ++ wr_u32 10 ++ wr_u32 777 ++ [1, 2, 3])
    (by decide) (by decide) (by decide)

end espnow_receiver_g1

/-! ## The text fields of a reply -/

namespace espnow

/-- Copying into a zeroed field of `cap` bytes with `strncpy` and `n` at most `cap`: the text
cut to `n` bytes, then zero bytes up to `cap`. -/
theorem strncpy_zeroed (text : List Byte) (cap n : Nat) (h : n ≤ cap) :
    strncpy (List.replicate cap 0) text n
      = (c_str text).take n ++ List.replicate (cap - min (c_str text).length n) 0 := by
  simp only [strncpy, List.drop_replicate, List.append_assoc,
    List.append_replicate_replicate, List.length_take]
  congr 2
  omega

/-- A zero-free text followed by at least one zero byte reads back as itself. -/
theorem c_str_append_zeros (a : List Byte) (k : Nat) (ha : ∀ x ∈ a, x ≠ 0) (hk : 0 < k) :
    c_str (a ++ List.replicate k 0) = a := by
  have hr : List.replicate k (0 : Byte) = 0 :: List.replicate (k - 1) 0 := by
    have : k = (k - 1) + 1 := by omega
    rw [this, List.replicate_succ]
    simp
  rw [hr]
  exact c_str_append_zero a _ ha

/-- A load from the zero bytes that follow a text gives 0. -/
theorem rd_u8_zeros (a : List Byte) (k i : Nat) (hi : a.length ≤ i) :
    rd_u8 (a ++ List.replicate k 0) i = 0 := by
  have hidx : i = a.length + (i - a.length) := by omega
  rw [hidx, rd_u8_append a _ a.length _ rfl]
  simp only [rd_u8, List.getD_eq_getElem?_getD, List.getElem?_replicate]
  split <;> rfl

end espnow

namespace espnow_receiver_g1

open espnow

/-- C14: for every message text given to `send_reply`, the 180-byte `message` field of the
record holds the first min(n, 179) bytes of the text (n being its length up to the
terminator) followed only by zero bytes: byte 179 of the field is zero, the text read back
is the given text cut to 179 bytes; and the 20-byte `sender_id` field has a zero byte at
index 19. Both fields sit in the frame at offsets 20 and 0. -/
theorem g1_reply_text_fields (env : env_t) (text : List Byte) :
    (build_reply env text).message
        = (c_str text).take 179
            ++ List.replicate (180 - min (c_str text).length 179) 0
      ∧ (build_reply env text).message.length = 180
      ∧ rd_u8 (build_reply env text).message 179 = 0
      ∧ c_str (build_reply env text).message = (c_str text).take 179
      ∧ (c_str (build_reply env text).message).length = min (c_str text).length 179
      ∧ ((to_bytes (build_reply env text)).drop 20).take 180 = (build_reply env text).message
      ∧ (build_reply env text).sender_id.length = 20
      ∧ rd_u8 (build_reply env text).sender_id 19 = 0
      ∧ (to_bytes (build_reply env text)).take 20 = (build_reply env text).sender_id := by
  have hm : (build_reply env text).message = strncpy (List.replicate 180 0) text 179 := rfl
  have hs : (build_reply env text).sender_id
      = strncpy (List.replicate 20 0) MY_NODE_ID 19 := rfl
  have hz := strncpy_zeroed text 180 179 (by decide)
  have hnz : ∀ x ∈ (c_str text).take 179, x ≠ 0 :=
    fun x hx => c_str_ne_zero text x (List.mem_of_mem_take hx)
  have hlen : ((c_str text).take 179).length = min (c_str text).length 179 := by
    rw [List.length_take]
    omega
  have hml : (strncpy (List.replicate 180 0) text 179).length = 180 := by
    rw [strncpy_length _ _ _ (by simp)]
    simp
  rw [hm, hs]
  refine ⟨hz, hml, ?_, ?_, ?_, ?_, reply_sender_id_length, by decide, ?_⟩
  · rw [hz]
    exact rd_u8_zeros _ _ 179 (by rw [hlen]; omega)
  · rw [hz]
    exact c_str_append_zeros _ _ hnz (by omega)
  · rw [hz, c_str_append_zeros _ _ hnz (by omega), hlen]
  · rw [to_bytes_build_reply, List.append_assoc, List.drop_left' reply_sender_id_length,
      List.take_left' hml]
  · rw [to_bytes_build_reply, List.append_assoc, List.take_left' reply_sender_id_length]

end espnow_receiver_g1

/-! ## Telemetry records and the texts printed -/

namespace espnow

/-- A text is no longer than the buffer it is read from. -/
theorem c_str_length_le (p : List Byte) : (c_str p).length ≤ p.length :=
  (List.takeWhile_sublist _).length_le

/-- Text printed with precision `n` has at most `n` bytes. -/
theorem c_str_prec_length_le (n : Nat) (p : List Byte) : (c_str_prec n p).length ≤ n := by
  have h := c_str_length_le (p.take n)
  rw [List.length_take] at h
  simp only [c_str_prec]
  omega

/-- A byte load does not see a store at another index. -/
theorem rd_u8_set_ne (p : List Byte) (i j : Nat) (b : Byte) (h : j ≠ i) :
    rd_u8 (p.set j b) i = rd_u8 p i := by
  simp [rd_u8, List.getD_eq_getElem?_getD, List.getElem?_set_ne h]

/-- A word load does not see a store outside its four bytes. -/
theorem rd_u32_set_ne (p : List Byte) (i j : Nat) (b : Byte)
    (h : j < i ∨ i + 3 < j) : rd_u32 (p.set j b) i = rd_u32 p i := by
  simp only [rd_u32]
  rw [rd_u8_set_ne p i j b (by omega), rd_u8_set_ne p (i + 1) j b (by omega),
    rd_u8_set_ne p (i + 2) j b (by omega), rd_u8_set_ne p (i + 3) j b (by omega)]

end espnow

namespace espnow_receiver

open espnow

/-- A call with both pointers set and a 28-byte frame logs the source and the telemetry line
read from the `sensor_data_t` layout. -/
theorem led_on_data_recv_28 (info : esp_now_recv_info_t) (frame : List Byte)
    (hlen : frame.length = 28) :
    on_data_recv (some info) (some frame) (frame.length : Int)
      = [Effect.esp_log log_level.I
          (log_line.pkt_from info.src_addr 28
            (match info.rx_ctrl with
             | some rx => rx.rssi
             | none => 0)),
         Effect.esp_log log_level.I
          (log_line.sensor28 (c_str_prec 10 ((frame.drop 12).take 10)) (rd_u32 frame 0)
            (rd_u32 frame 4) (rd_i32 frame 8) (rd_u32 frame 24))] := by
  rw [hlen]
  simp [on_data_recv, sizeof_led_control_t, sizeof_sensor_data_t, load_sensor_data]

/-- A call with both pointers set and a 208-byte frame logs the source and the line of the
wide legacy record. -/
theorem led_on_data_recv_208 (info : esp_now_recv_info_t) (frame : List Byte)
    (hlen : frame.length = 208) :
    on_data_recv (some info) (some frame) (frame.length : Int)
      = [Effect.esp_log log_level.I
          (log_line.pkt_from info.src_addr 208
            (match info.rx_ctrl with
             | some rx => rx.rssi
             | none => 0)),
         Effect.esp_log log_level.I
          (log_line.sensor200 (c_str_prec 200 (frame.take 200)) (rd_i32 frame 200)
            (rd_u32 frame 204))] := by
  rw [hlen]
  simp [on_data_recv, sizeof_led_control_t, sizeof_sensor_data_t, sizeof_esp_now_data_t,
    load_esp_now_data]

/-- A call with both pointers set and a 168-byte frame logs the source and the line of the
narrow legacy record. -/
theorem led_on_data_recv_168 (info : esp_now_recv_info_t) (frame : List Byte)
    (hlen : frame.length = 168) :
    on_data_recv (some info) (some frame) (frame.length : Int)
      = [Effect.esp_log log_level.I
          (log_line.pkt_from info.src_addr 168
            (match info.rx_ctrl with
             | some rx => rx.rssi
             | none => 0)),
         Effect.esp_log log_level.I
          (log_line.sensor160 (c_str_prec 160 (frame.take 160)) (rd_i32 frame 160)
            (rd_u32 frame 164))] := by
  rw [hlen]
  simp [on_data_recv, sizeof_led_control_t, sizeof_sensor_data_t, sizeof_esp_now_data_t,
    sizeof_sensor_payload_160_t, load_sensor_payload_160]

/-- A call whose frame has none of the four record sizes prints no text. -/
theorem led_texts_other_length (info : esp_now_recv_info_t) (frame : List Byte)
    (h18 : frame.length ≠ 18) (h28 : frame.length ≠ 28) (h208 : frame.length ≠ 208)
    (h168 : frame.length ≠ 168) :
    texts (on_data_recv (some info) (some frame) (frame.length : Int)) = [] := by
  by_cases hz : frame.length = 0
  · rw [hz]
    rfl
  · have c18 : ¬ ((frame.length : Int) = 18) := by omega
    have c28 : ¬ ((frame.length : Int) = 28) := by omega
    have c208 : ¬ ((frame.length : Int) = 208) := by omega
    have c168 : ¬ ((frame.length : Int) = 168) := by omega
    have cpos : ¬ ((frame.length : Int) ≤ 0) := by omega
    simp [on_data_recv, sizeof_led_control_t, sizeof_sensor_data_t, sizeof_esp_now_data_t,
      sizeof_sensor_payload_160_t, c18, c28, c208, c168, cpos, texts, text_of]

/-- C15, as stated, fails: a 28-byte telemetry frame whose `sensor_id` field holds ten
non-zero bytes is printed with all ten of them, one more than capacity minus one. -/
theorem led_sensor_id_text_of_ten_bytes :
    (sample_sensor_frame (c_literal "ABCDEFGHIJ") 0 0).length = 28
      ∧ texts (on_data_recv (some sample_info)
          (some (sample_sensor_frame (c_literal "ABCDEFGHIJ") 0 0))
          ((sample_sensor_frame (c_literal "ABCDEFGHIJ") 0 0).length : Int))
        = [c_literal "ABCDEFGHIJ"]
      ∧ (c_literal "ABCDEFGHIJ").length = 10
      ∧ ¬ ((c_literal "ABCDEFGHIJ").length ≤ 9) := by
  decide

/-- C15, amended: in the LED / telemetry receiver, for every frame content, also with fields
that hold no zero byte, the LED command is forced to end in a terminator at index 15 before
it is compared or printed, so its text has at most 15 bytes; the Compact Telemetry
`sensor_id` and the two legacy messages are not terminated but printed with a precision
equal to the capacity of the field, so the text printed has at most 10, 200 and 160 bytes;
frames of other lengths print no text. -/
theorem led_text_bounds (info : esp_now_recv_info_t) (frame text : List Byte)
    (hmem : text ∈ texts (on_data_recv (some info) (some frame) (frame.length : Int))) :
    text.length
        ≤ (if frame.length = 18 then 15
           else if frame.length = 28 then 10
           else if frame.length = 208 then 200
           else if frame.length = 168 then 160
           else 0)
      ∧ (c_str ((load_led_control frame).command.set (16 - 1) 0)).length ≤ 15 := by
  have hcmd : (c_str ((load_led_control frame).command.set (16 - 1) 0)).length ≤ 15 := by
    have h := c_str_length_le (frame.take 15)
    rw [List.length_take] at h
    simp only [load_led_control, led_command_text]
    omega
  refine ⟨?_, hcmd⟩
  by_cases h18 : frame.length = 18
  · rw [if_pos h18]
    rw [led_on_data_recv_18 info frame h18, handle_led_eq] at hmem
    have h := c_str_length_le (frame.take 15)
    rw [List.length_take] at h
    by_cases hc : c_str (frame.take 15) = SET_LED
    · rw [if_pos hc] at hmem
      simp [texts, text_of] at hmem
    · rw [if_neg hc] at hmem
      have ht : text = c_str (frame.take 15) := by
        simpa [texts, text_of] using hmem
      rw [ht]
      omega
  · rw [if_neg h18]
    by_cases h28 : frame.length = 28
    · rw [if_pos h28]
      rw [led_on_data_recv_28 info frame h28] at hmem
      have ht : text = c_str_prec 10 ((frame.drop 12).take 10) := by
        simpa [texts, text_of] using hmem
      rw [ht]
      exact c_str_prec_length_le _ _
    · rw [if_neg h28]
      by_cases h208 : frame.length = 208
      · rw [if_pos h208]
        rw [led_on_data_recv_208 info frame h208] at hmem
        have ht : text = c_str_prec 200 (frame.take 200) := by
          simpa [texts, text_of] using hmem
        rw [ht]
        exact c_str_prec_length_le _ _
      · rw [if_neg h208]
        by_cases h168 : frame.length = 168
        · rw [if_pos h168]
          rw [led_on_data_recv_168 info frame h168] at hmem
          have ht : text = c_str_prec 160 (frame.take 160) := by
            simpa [texts, text_of] using hmem
          rw [ht]
          exact c_str_prec_length_le _ _
        · rw [led_texts_other_length info frame h18 h28 h208 h168] at hmem
          simp at hmem

/-- Witness of the amended C15: the ten-byte sensor identifier is printed in full. -/
theorem led_text_bounds_witness :
    (c_literal "ABCDEFGHIJ").length
        ≤ (if (sample_sensor_frame (c_literal "ABCDEFGHIJ") 0 0).length = 18 then 15
           else if (sample_sensor_frame (c_literal "ABCDEFGHIJ") 0 0).length = 28 then 10
           else if (sample_sensor_frame (c_literal "ABCDEFGHIJ") 0 0).length = 208 then 200
           else if (sample_sensor_frame (c_literal "ABCDEFGHIJ") 0 0).length = 168 then 160
           else 0)
      ∧ (c_str ((load_led_control
            (sample_sensor_frame (c_literal "ABCDEFGHIJ") 0 0)).command.set (16 - 1) 0)).length
          ≤ 15 :=
  led_text_bounds sample_info (sample_sensor_frame (c_literal "ABCDEFGHIJ") 0 0)
    (c_literal "ABCDEFGHIJ") (by decide)

/-- C16: in the LED / telemetry receiver a 28-byte frame is read by position, little-endian,
under the natural alignment of `sensor_data_t`: temperature is the 32-bit pattern of bytes
0..3, humidity that of bytes 4..7, `light_level` the signed value of bytes 8..11,
`sensor_id` bytes 12..21 and `timestamp_ms` the unsigned value of bytes 24..27; the padding
bytes at offsets 22 and 23 change nothing of what the call does. -/
theorem led_sensor28_layout (info : esp_now_recv_info_t) (frame : List Byte)
    (hlen : frame.length = 28) :
    on_data_recv (some info) (some frame) (frame.length : Int)
        = [Effect.esp_log log_level.I
            (log_line.pkt_from info.src_addr 28
              (match info.rx_ctrl with
               | some rx => rx.rssi
               | none => 0)),
           Effect.esp_log log_level.I
            (log_line.sensor28 (c_str ((frame.drop 12).take 10)) (rd_u32 frame 0)
              (rd_u32 frame 4) (rd_i32 frame 8) (rd_u32 frame 24))]
      ∧ telemetry (on_data_recv (some info) (some frame) (frame.length : Int))
        = [log_line.sensor28 (c_str ((frame.drop 12).take 10)) (rd_u32 frame 0)
              (rd_u32 frame 4) (rd_i32 frame 8) (rd_u32 frame 24)]
      ∧ gpio_writes (on_data_recv (some info) (some frame) (frame.length : Int)) = []
      ∧ ∀ b0 b1 : Byte,
          on_data_recv (some info) (some ((frame.set 22 b0).set 23 b1))
              (((frame.set 22 b0).set 23 b1).length : Int)
            = on_data_recv (some info) (some frame) (frame.length : Int) := by
  have hp : ∀ f : List Byte,
      c_str_prec 10 ((f.drop 12).take 10) = c_str ((f.drop 12).take 10) := by
    intro f
    simp [c_str_prec, List.take_take]
  have key := led_on_data_recv_28 info frame hlen
  rw [hp] at key
  refine ⟨key, ?_, ?_, ?_⟩
  · rw [key]
    rfl
  · rw [key]
    rfl
  · intro b0 b1
    have hl : ((frame.set 22 b0).set 23 b1).length = 28 := by
      rw [List.length_set, List.length_set]
      exact hlen
    have hid :
        (((frame.set 22 b0).set 23 b1).drop 12).take 10 = (frame.drop 12).take 10 := by
      apply List.ext_getElem?
      intro i
      simp only [List.getElem?_take, List.getElem?_drop]
      split
      · rw [List.getElem?_set_ne (by omega), List.getElem?_set_ne (by omega)]
      · rfl
    have key2 := led_on_data_recv_28 info _ hl
    rw [hp, hid] at key2
    rw [key2, key]
    simp only [rd_i32]
    rw [rd_u32_set_ne _ 0 23 b1 (by omega), rd_u32_set_ne _ 0 22 b0 (by omega),
      rd_u32_set_ne _ 4 23 b1 (by omega), rd_u32_set_ne _ 4 22 b0 (by omega),
      rd_u32_set_ne _ 8 23 b1 (by omega), rd_u32_set_ne _ 8 22 b0 (by omega),
      rd_u32_set_ne _ 24 23 b1 (by omega), rd_u32_set_ne _ 24 22 b0 (by omega)]

/-- Witness of C16: the frame encoding `TEMP01`, 23.5 (pattern `0x41BC0000`), 60.0 (pattern
`0x42700000`), light level 300 and timestamp 1000 ms, with the padding bytes set to `0xAA`
and `0x55`, is observed with exactly those values. -/
theorem led_sensor28_layout_witness :
    (on_data_recv (some sample_info)
        (some (sample_sensor_frame (c_literal "TEMP01") 0xAA 0x55))
        ((sample_sensor_frame (c_literal "TEMP01") 0xAA 0x55).length : Int)
        = [Effect.esp_log log_level.I
            (log_line.pkt_from sample_info.src_addr 28
              (match sample_info.rx_ctrl with
               | some rx => rx.rssi
               | none => 0)),
           Effect.esp_log log_level.I
            (log_line.sensor28
              (c_str (((sample_sensor_frame (c_literal "TEMP01") 0xAA 0x55).drop 12).take 10))
              (rd_u32 (sample_sensor_frame (c_literal "TEMP01") 0xAA 0x55) 0)
              (rd_u32 (sample_sensor_frame (c_literal "TEMP01") 0xAA 0x55) 4)
              (rd_i32 (sample_sensor_frame (c_literal "TEMP01") 0xAA 0x55) 8)
              (rd_u32 (sample_sensor_frame (c_literal "TEMP01") 0xAA 0x55) 24))]
      ∧ telemetry (on_data_recv (some sample_info)
          (some (sample_sensor_frame (c_literal "TEMP01") 0xAA 0x55))
          ((sample_sensor_frame (c_literal "TEMP01") 0xAA 0x55).length : Int))
        = [log_line.sensor28
              (c_str (((sample_sensor_frame (c_literal "TEMP01") 0xAA 0x55).drop 12).take 10))
              (rd_u32 (sample_sensor_frame (c_literal "TEMP01") 0xAA 0x55) 0)
              (rd_u32 (sample_sensor_frame (c_literal "TEMP01") 0xAA 0x55) 4)
              (rd_i32 (sample_sensor_frame (c_literal "TEMP01") 0xAA 0x55) 8)
              (rd_u32 (sample_sensor_frame (c_literal "TEMP01") 0xAA 0x55) 24)]
      ∧ gpio_writes (on_data_recv (some sample_info)
          (some (sample_sensor_frame (c_literal "TEMP01") 0xAA 0x55))
          ((sample_sensor_frame (c_literal "TEMP01") 0xAA 0x55).length : Int)) = []
      ∧ ∀ b0 b1 : Byte,
          on_data_recv (some sample_info)
              (some (((sample_sensor_frame (c_literal "TEMP01") 0xAA 0x55).set 22 b0).set
                23 b1))
              ((((sample_sensor_frame (c_literal "TEMP01") 0xAA 0x55).set 22 b0).set
                23 b1).length : Int)
            = on_data_recv (some sample_info)
                (some (sample_sensor_frame (c_literal "TEMP01") 0xAA 0x55))
                ((sample_sensor_frame (c_literal "TEMP01") 0xAA 0x55).length : Int))
      ∧ telemetry (on_data_recv (some sample_info)
          (some (sample_sensor_frame (c_literal "TEMP01") 0xAA 0x55)) 28)
        = [log_line.sensor28 (c_literal "TEMP01") 0x41BC0000 0x42700000 300 1000] :=
  ⟨led_sensor28_layout sample_info (sample_sensor_frame (c_literal "TEMP01") 0xAA 0x55)
      (by decide),
    by decide⟩

end espnow_receiver

/-! ## Texts printed by the group receiver -/

namespace espnow_receiver_g1

open espnow

/-- The group receiver prints `sender_id` with `%s` straight from the received buffer: when
the 20-byte field holds no zero byte the text printed runs on into the `message` field.
Here the field holds twenty letters `A` and the message is `hi`; the sender line shows 22
bytes. -/
theorem g1_sender_text_runs_past_field :
    Effect.esp_log log_level.I (log_line.sender (List.replicate 20 65 ++ c_literal "hi"))
        ∈ (on_data_recv sample_env 0 (some sample_info)
            (some (List.replicate 20 65 ++ (c_literal "hi" ++ List.replicate 178 0)
              ++ [1, 0, 0, 0] ++ wr_u32 1 ++ wr_u32 0)) 212).effects
      ∧ (List.replicate 20 65 ++ (c_literal "hi" ++ List.replicate 178 0)
              ++ [1, 0, 0, 0] ++ wr_u32 1 ++ wr_u32 0).length = 212
      ∧ (List.replicate 20 (65 : Byte) ++ c_literal "hi").length = 22 := by
  decide

end espnow_receiver_g1
